import Mathlib

/-!
# Mailtrain: field type registry and subscription notification dispatch

A shallow embedding of

* `client/src/lists/subscriptions/helpers.js` (`getFieldTypes`), the per-kind
  behaviour table of the subscription form, and
* `lib/subscription-mail-helpers.js` (`sendMail` and the six `send*` entry
  points), the notification dispatcher,
* `client/src/lists/fields/CUD.js` (`localValidateFormValues`, `submitHandler`
  and `getOrderOptions`), the field form, and
* `app-builder.js` (the two error handlers of `createApp`),

followed by the statements proved about them.

JavaScript objects that the code mutates in place (`data`, `state`) are passed
and returned explicitly.  Callback-based external services are represented by
the result they hand to their callback.
-/

namespace Mailtrain

/-! ## JavaScript values -/

/-- Errors thrown by the JavaScript runtime itself. -/
inductive JSError where
  | typeError (what : String)
  | referenceError (ident : String)
  deriving DecidableEq, Repr

/-- The JavaScript values that occur in subscription records and form data.
Numbers are the integer-valued ones (`num`) and `NaN`. -/
inductive JSVal where
  | undefined
  | null
  | bool (b : Bool)
  | num (n : Int)
  | nan
  | str (s : String)
  | arr (xs : List String)
  | date (ms : Int)
  deriving DecidableEq, Repr

/-- JavaScript `ToBoolean`. -/
def JSVal.truthy : JSVal → Bool
  | .undefined => false
  | .null => false
  | .bool b => b
  | .num n => n != 0
  | .nan => false
  | .str s => s != ""
  | .arr _ => true
  | .date _ => true

/-- The expression `a || b`. -/
def JSVal.or (a b : JSVal) : JSVal := if a.truthy then a else b

/-! ## Strings: white space, `trim`, number rendering and `parseInt` -/

/-- The code points removed by `String.prototype.trim` and skipped by
`parseInt` (ECMAScript `WhiteSpace` and `LineTerminator`). -/
def isJSWhiteSpace (c : Char) : Bool :=
  c.val == 0x09 || c.val == 0x0A || c.val == 0x0B || c.val == 0x0C || c.val == 0x0D ||
  c.val == 0x20 || c.val == 0xA0 || c.val == 0x1680 ||
  (0x2000 ≤ c.val && c.val ≤ 0x200A) ||
  c.val == 0x2028 || c.val == 0x2029 || c.val == 0x202F || c.val == 0x205F ||
  c.val == 0x3000 || c.val == 0xFEFF

/-- The method `String.prototype.trim`. -/
def jsTrim (s : String) : String :=
  String.mk ((s.data.dropWhile isJSWhiteSpace).reverse.dropWhile isJSWhiteSpace).reverse

/-- Decimal rendering of a natural number. -/
def natToString (n : Nat) : String := String.mk (Nat.toDigits 10 n)

/-- The method `Number.prototype.toString` on an integer-valued number (plain
decimal notation, as JavaScript prints integers below `1e21`). -/
def numToString (n : Int) : String :=
  if n < 0 then "-" ++ natToString n.natAbs else natToString n.natAbs

/-- Value of a character as a digit of the given radix (10 or 16). -/
def digitValue (radix : Nat) (c : Char) : Option Nat :=
  if '0' ≤ c ∧ c ≤ '9' then some (c.toNat - '0'.toNat)
  else if radix = 16 ∧ 'a' ≤ c ∧ c ≤ 'f' then some (c.toNat - 'a'.toNat + 10)
  else if radix = 16 ∧ 'A' ≤ c ∧ c ≤ 'F' then some (c.toNat - 'A'.toNat + 10)
  else none

/-- Reads the longest prefix of radix digits: `acc` is the value read so far,
`seen` tells whether at least one digit was read. -/
def readDigits (radix : Nat) : List Char → Nat → Bool → Option Nat
  | [], acc, seen => if seen then some acc else none
  | c :: cs, acc, seen =>
    match digitValue radix c with
    | some d => readDigits radix cs (acc * radix + d) true
    | none => if seen then some acc else none

/-- The ten decimal digit characters. -/
def decimalChars : List Char := ['0', '1', '2', '3', '4', '5', '6', '7', '8', '9']

/-- One step of reading a decimal numeral from the left. -/
def decimalStep (acc : Nat) (c : Char) : Nat := acc * 10 + (digitValue 10 c).getD 0

/-- The global function `parseInt` applied to a string, without a radix
argument: leading white space is skipped, a sign is read, a `0x`/`0X` prefix
selects radix 16, and the longest prefix of digits is converted; no digit at
all gives `NaN`. -/
def parseIntString (s : String) : JSVal :=
  let cs := s.data.dropWhile isJSWhiteSpace
  let neg := cs.head? = some '-'
  let cs := if cs.head? = some '-' ∨ cs.head? = some '+' then cs.tail else cs
  let hex := cs.take 2 = ['0', 'x'] ∨ cs.take 2 = ['0', 'X']
  let radix := if hex then 16 else 10
  let cs := if hex then cs.drop 2 else cs
  match readDigits radix cs 0 false with
  | some v => .num (if neg then -(v : Int) else (v : Int))
  | none => .nan

/-- A non-empty run of decimal digits. -/
def isDecimalDigits (cs : List Char) : Bool := !cs.isEmpty && cs.all Char.isDigit

/-- Nothing, or an exponent part `e`/`E`, optional sign, digits. -/
def isExponentPart : List Char → Bool
  | [] => true
  | c :: r =>
    (c == 'e' || c == 'E') &&
      (match r with
       | '+' :: d => isDecimalDigits d
       | '-' :: d => isDecimalDigits d
       | d => isDecimalDigits d)

/-- The grammar `StrUnsignedDecimalLiteral` of string-to-number conversion. -/
def isStrUnsignedDecimalLiteral (cs : List Char) : Bool :=
  if cs = "Infinity".data then true
  else
    let ip := cs.takeWhile Char.isDigit
    match cs.dropWhile Char.isDigit with
    | '.' :: r =>
      let fp := r.takeWhile Char.isDigit
      (!ip.isEmpty || !fp.isEmpty) && isExponentPart (r.dropWhile Char.isDigit)
    | rest => !ip.isEmpty && isExponentPart rest

/-- A non-empty run of digits below the given radix (2, 8 or 16). -/
def isRadixDigits (radix : Nat) (cs : List Char) : Bool :=
  !cs.isEmpty && cs.all fun c =>
    match digitValue 16 c with
    | some d => d < radix
    | none => false

/-- The grammar `NonDecimalIntegerLiteral`: `0x`, `0o` and `0b` literals. -/
def isNonDecimalIntegerLiteral : List Char → Bool
  | '0' :: 'x' :: r => isRadixDigits 16 r
  | '0' :: 'X' :: r => isRadixDigits 16 r
  | '0' :: 'o' :: r => isRadixDigits 8 r
  | '0' :: 'O' :: r => isRadixDigits 8 r
  | '0' :: 'b' :: r => isRadixDigits 2 r
  | '0' :: 'B' :: r => isRadixDigits 2 r
  | _ => false

/-- The grammar `StrNumericLiteral`. -/
def isStrNumericLiteral (cs : List Char) : Bool :=
  isNonDecimalIntegerLiteral cs ||
    (match cs with
     | '+' :: r => isStrUnsignedDecimalLiteral r
     | '-' :: r => isStrUnsignedDecimalLiteral r
     | r => isStrUnsignedDecimalLiteral r)

/-- The global function `isNaN` applied to a string: the string is converted
to a number, which trims white space, reads the empty string as `0` and gives
`NaN` exactly when the rest is not a numeric literal. -/
def isNaNString (s : String) : Bool :=
  let cs := (jsTrim s).data
  !(cs.isEmpty || isStrNumericLiteral cs)

/-! ## Form data and field descriptions -/

/-- The object `data`: a record or form record, column name to value. -/
abbrev Data := List (String × JSVal)

/-- Property read `data[col]`; an absent property is `undefined`. -/
def Data.get (data : Data) (col : String) : JSVal :=
  match data with
  | [] => .undefined
  | (k, v) :: rest => if k = col then v else Data.get rest col

/-- Property write `data[col] = v`, for a property name other than
`__proto__`. A write to that name creates no property: the loop of `sendMail`,
whose property names come from its caller, treats that name apart
(`resolveRelativeUrls`). -/
def Data.set (data : Data) (col : String) (v : JSVal) : Data :=
  match data with
  | [] => [(col, v)]
  | (k, w) :: rest => if k = col then (k, v) :: rest else (k, w) :: Data.set rest col v

/-- One entry of `settings.options`. -/
structure EnumOption where
  key : String
  label : String
  deriving DecidableEq, Repr

/-- The object `groupedField.settings`. -/
structure FieldSettings where
  dateFormat : String
  options : List EnumOption
  deriving DecidableEq, Repr

/-- The object `groupedField`; `default_value` is `none` for `null`. -/
structure GroupedField where
  id : Nat
  column : Option String
  name : String
  default_value : Option String
  settings : FieldSettings
  deriving DecidableEq, Repr

/-- Truthiness of `groupedField.default_value`. -/
def GroupedField.defaultValueSet (f : GroupedField) : Bool :=
  match f.default_value with
  | some d => d != ""
  | none => false

/-- The form state handed to `validate`: attribute `attr` of form field `col`
is read with `getIn([col, attr])` and written with `setIn([col, attr], v)`. -/
abbrev FormState := List ((String × String) × JSVal)

/-- The call `state.getIn([col, attr])`. -/
def FormState.getIn (state : FormState) (col attr : String) : JSVal :=
  match state with
  | [] => .undefined
  | (k, v) :: rest => if k = (col, attr) then v else FormState.getIn rest col attr

/-- The call `state.setIn([col, attr], v)`. -/
def FormState.setIn (state : FormState) (col attr : String) (v : JSVal) : FormState :=
  match state with
  | [] => [((col, attr), v)]
  | (k, w) :: rest =>
    if k = (col, attr) then (k, v) :: rest else (k, w) :: FormState.setIn rest col attr v

/-- What the helpers import from `shared/lists` and `shared/date`, and the
rendering of `Date` objects. -/
structure Shared where
  getFieldColumn : GroupedField → String
  formatDate : String → JSVal → String
  parseDate : String → JSVal → JSVal
  formatBirthday : String → JSVal → String
  parseBirthday : String → JSVal → JSVal
  dateToString : Int → String

/-- String conversion of a value (`ToString`, which is also what the method
`toString` returns on numbers and strings). -/
def jsToString (sh : Shared) : JSVal → String
  | .undefined => "undefined"
  | .null => "null"
  | .bool b => if b then "true" else "false"
  | .num n => numToString n
  | .nan => "NaN"
  | .str s => s
  | .arr xs => ",".intercalate xs
  | .date ms => sh.dateToString ms

/-- The global function `parseInt` applied to a value: the value is first
converted to a string. -/
def parseInt (sh : Shared) (v : JSVal) : JSVal := parseIntString (jsToString sh v)

/-! ## The field type table of `getFieldTypes` -/

/-- The form components imported from `lib/form`. -/
inductive Component where
  | ACEEditor | CheckBoxGroup | DatePicker | Dropdown | InputField | RadioGroup | TextArea
  deriving DecidableEq, Repr

/-- The React element built by `form`: the component and its props. -/
structure FormElement where
  component : Component
  key : String
  id : String
  label : String
  dateFormat : Option String
  birthday : Bool
  mode : Option String
  height : Option String
  options : Option (List EnumOption)
  deriving DecidableEq, Repr

/-- One entry of the table returned by `getFieldTypes`. -/
structure FieldType where
  form : GroupedField → FormElement
  assignFormData : GroupedField → Data → Data
  initFormData : GroupedField → Data → Data
  assignEntity : GroupedField → Data → Data
  validate : GroupedField → FormState → Except JSError FormState
  indexable : Bool

/-- An element with only the props `key`, `id` and `label`. -/
def plainElement (sh : Shared) (c : Component) (groupedField : GroupedField) : FormElement :=
  { component := c, key := sh.getFieldColumn groupedField, id := sh.getFieldColumn groupedField,
    label := groupedField.name, dateFormat := none, birthday := false, mode := none,
    height := none, options := none }

/-- The function `stringFieldType` (lines 26-38). -/
def stringFieldType (sh : Shared) (long : Bool) : FieldType where
  form groupedField :=
    if long then plainElement sh .TextArea groupedField
    else plainElement sh .InputField groupedField
  assignFormData groupedField data :=
    let value := data.get (sh.getFieldColumn groupedField)
    data.set (sh.getFieldColumn groupedField) (value.or (.str ""))
  initFormData groupedField data := data.set (sh.getFieldColumn groupedField) (.str "")
  assignEntity _ data := data
  validate _ state := pure state
  indexable := true

/-- The object `numberFieldType` (lines 40-61). -/
def numberFieldType (sh : Shared) (t : String → String) : FieldType where
  form groupedField := plainElement sh .InputField groupedField
  assignFormData groupedField data :=
    let value := data.get (sh.getFieldColumn groupedField)
    data.set (sh.getFieldColumn groupedField)
      (if value.truthy then .str (jsToString sh value) else .str "")
  initFormData groupedField data := data.set (sh.getFieldColumn groupedField) (.str "")
  assignEntity groupedField data :=
    data.set (sh.getFieldColumn groupedField)
      (parseInt sh (data.get (sh.getFieldColumn groupedField)))
  validate groupedField state :=
    match state.getIn (sh.getFieldColumn groupedField) "value" with
    | .str raw =>
      let value := jsTrim raw
      if value ≠ "" ∧ isNaNString value then
        pure (state.setIn (sh.getFieldColumn groupedField) "error"
          (.str (t "Value must be a number")))
      else
        pure (state.setIn (sh.getFieldColumn groupedField) "error" .null)
    | _ => throw (.typeError "trim is not a function")
  indexable := true

/-- A `DatePicker` element. -/
def dateElement (sh : Shared) (groupedField : GroupedField) (birthday : Bool) : FormElement :=
  { component := .DatePicker, key := sh.getFieldColumn groupedField,
    id := sh.getFieldColumn groupedField, label := groupedField.name,
    dateFormat := some groupedField.settings.dateFormat, birthday := birthday, mode := none,
    height := none, options := none }

/-- The object `dateFieldType` (lines 63-86). -/
def dateFieldType (sh : Shared) (t : String → String) : FieldType where
  form groupedField := dateElement sh groupedField false
  assignFormData groupedField data :=
    let value := data.get (sh.getFieldColumn groupedField)
    data.set (sh.getFieldColumn groupedField)
      (if value.truthy then .str (sh.formatDate groupedField.settings.dateFormat value)
       else .str "")
  initFormData groupedField data := data.set (sh.getFieldColumn groupedField) (.str "")
  assignEntity groupedField data :=
    let date := sh.parseDate groupedField.settings.dateFormat
      (data.get (sh.getFieldColumn groupedField))
    data.set (sh.getFieldColumn groupedField) date
  validate groupedField state :=
    let value := state.getIn (sh.getFieldColumn groupedField) "value"
    let date := sh.parseDate groupedField.settings.dateFormat value
    if value ≠ .str "" ∧ !date.truthy then
      pure (state.setIn (sh.getFieldColumn groupedField) "error" (.str (t "Date is invalid")))
    else
      pure (state.setIn (sh.getFieldColumn groupedField) "error" .null)
  indexable := true

/-- The object `birthdayFieldType` (lines 88-111). -/
def birthdayFieldType (sh : Shared) (t : String → String) : FieldType where
  form groupedField := dateElement sh groupedField true
  assignFormData groupedField data :=
    let value := data.get (sh.getFieldColumn groupedField)
    data.set (sh.getFieldColumn groupedField)
      (if value.truthy then .str (sh.formatBirthday groupedField.settings.dateFormat value)
       else .str "")
  initFormData groupedField data := data.set (sh.getFieldColumn groupedField) (.str "")
  assignEntity groupedField data :=
    let date := sh.parseBirthday groupedField.settings.dateFormat
      (data.get (sh.getFieldColumn groupedField))
    data.set (sh.getFieldColumn groupedField) date
  validate groupedField state :=
    let value := state.getIn (sh.getFieldColumn groupedField) "value"
    let date := sh.parseBirthday groupedField.settings.dateFormat value
    if value ≠ .str "" ∧ !date.truthy then
      pure (state.setIn (sh.getFieldColumn groupedField) "error" (.str (t "Date is invalid")))
    else
      pure (state.setIn (sh.getFieldColumn groupedField) "error" .null)
  indexable := true

/-- The object `jsonFieldType` (lines 113-125). -/
def jsonFieldType (sh : Shared) : FieldType where
  form groupedField :=
    { component := .ACEEditor, key := sh.getFieldColumn groupedField,
      id := sh.getFieldColumn groupedField, label := groupedField.name, dateFormat := none,
      birthday := false, mode := some "json", height := some "300px", options := none }
  assignFormData groupedField data :=
    let value := data.get (sh.getFieldColumn groupedField)
    data.set (sh.getFieldColumn groupedField) (value.or (.str ""))
  initFormData groupedField data := data.set (sh.getFieldColumn groupedField) (.str "")
  assignEntity _ data := data
  validate _ state := pure state
  indexable := false

/-- An element created with `React.createElement(componentType, ...)`. -/
def enumElement (sh : Shared) (componentType : Component) (groupedField : GroupedField) :
    FormElement :=
  { component := componentType, key := sh.getFieldColumn groupedField,
    id := sh.getFieldColumn groupedField, label := groupedField.name, dateFormat := none,
    birthday := false, mode := none, height := none,
    options := some groupedField.settings.options }

/-- The function `enumSingleFieldType` (lines 127-153). -/
def enumSingleFieldType (sh : Shared) (componentType : Component) : FieldType where
  form groupedField := enumElement sh componentType groupedField
  assignFormData groupedField data :=
    if data.get (sh.getFieldColumn groupedField) = .null then
      if groupedField.defaultValueSet then
        data.set (sh.getFieldColumn groupedField) (.str (groupedField.default_value.getD ""))
      else
        match groupedField.settings.options with
        | first :: _ => data.set (sh.getFieldColumn groupedField) (.str first.key)
        | [] => data.set (sh.getFieldColumn groupedField) (.str "")
    else data
  initFormData groupedField data :=
    if groupedField.defaultValueSet then
      data.set (sh.getFieldColumn groupedField) (.str (groupedField.default_value.getD ""))
    else
      match groupedField.settings.options with
      | first :: _ => data.set (sh.getFieldColumn groupedField) (.str first.key)
      | [] => data.set (sh.getFieldColumn groupedField) (.str "")
  assignEntity _ data := data
  validate _ state := pure state
  indexable := false

/-- The function `enumMultipleFieldType` (lines 155-168). -/
def enumMultipleFieldType (sh : Shared) (componentType : Component) : FieldType where
  form groupedField := enumElement sh componentType groupedField
  assignFormData groupedField data :=
    if data.get (sh.getFieldColumn groupedField) = .null then
      data.set (sh.getFieldColumn groupedField) (.arr [])
    else data
  initFormData groupedField data := data.set (sh.getFieldColumn groupedField) (.arr [])
  assignEntity _ data := data
  validate _ state := pure state
  indexable := false

/-- The function `getFieldTypes` (lines 22-189): the table `groupedFieldTypes`,
its entries in the order in which they are registered (lines 171-186). -/
def getFieldTypes (sh : Shared) (t : String → String) : List (String × FieldType) :=
  [ ("text", stringFieldType sh false),
    ("website", stringFieldType sh false),
    ("longtext", stringFieldType sh true),
    ("gpg", stringFieldType sh true),
    ("number", numberFieldType sh t),
    ("date", dateFieldType sh t),
    ("birthday", birthdayFieldType sh t),
    ("json", jsonFieldType sh),
    ("dropdown-enum", enumSingleFieldType sh .Dropdown),
    ("radio-enum", enumSingleFieldType sh .RadioGroup),
    ("checkbox-grouped", enumMultipleFieldType sh .CheckBoxGroup),
    ("radio-grouped", enumSingleFieldType sh .RadioGroup),
    ("dropdown-grouped", enumSingleFieldType sh .Dropdown) ]

/-- Property read `groupedFieldTypes[kind]`. -/
def fieldType? (sh : Shared) (t : String → String) (kind : String) : Option FieldType :=
  ((getFieldTypes sh t).find? fun e => e.1 == kind).map Prod.snd

/-- The flag `groupedFieldTypes[kind].indexable`. -/
def indexable? (sh : Shared) (t : String → String) (kind : String) : Option Bool :=
  (fieldType? sh t kind).map FieldType.indexable

/-! ## The notification dispatcher of `lib/subscription-mail-helpers.js` -/

/-- An error value handed to a callback by an external service. -/
abbrev Err := String

/-- The object `list`. -/
structure MailingList where
  id : Nat
  cid : String
  name : String
  defaultForm : JSVal
  deriving DecidableEq, Repr

/-- The object `subscription`; a name is `none` when it is null or undefined. -/
structure Subscription where
  cid : String
  firstName : Option String
  lastName : Option String
  deriving DecidableEq, Repr

/-- One element of `fields.getRow(fieldList, subscription)`. `value` is the
string held by the row, `none` for null or undefined (values that are not
strings belong to rows of other types than `gpg`, which `sendMail` does not
read). -/
structure Row where
  type : String
  value : Option String
  deriving DecidableEq, Repr

/-- The object `configItems` returned by `settings.list`. -/
structure ConfigItems where
  defaultHomepage : JSVal
  defaultFrom : JSVal
  defaultAddress : JSVal
  defaultPostaddress : JSVal
  serviceUrl : JSVal
  disableConfirmations : JSVal
  deriving DecidableEq, Repr

/-- The object `mailOpts`; a missing property is `false`. -/
structure MailOpts where
  ignoreDisableConfirmations : Bool
  deriving DecidableEq, Repr

/-- A template reference: the properties `template`, `layout` and `type`. -/
structure TemplateRef where
  template : String
  layout : Option String
  type : Option String
  deriving DecidableEq, Repr

/-- The pair `{ text, html }` of template references. -/
structure TemplatePair where
  text : TemplateRef
  html : TemplateRef
  deriving DecidableEq, Repr

/-- A name and address, as in `from` and `to`. -/
structure Party where
  name : JSVal
  address : JSVal
  deriving DecidableEq, Repr

/-- The first argument of `mailer.sendMail`; `sender` and `recipient` are its
properties `from` and `to`. -/
structure Mail where
  sender : Party
  recipient : Party
  subject : String
  encryptionKeys : List String
  deriving DecidableEq, Repr

/-- The second argument of `mailer.sendMail`. -/
structure MailContent where
  html : TemplateRef
  text : TemplateRef
  data : Data
  deriving DecidableEq, Repr

/-- The modules the dispatcher calls. A function taking a callback is
represented by what it hands to that callback, once: `Except.error err` for
`callback(err)`, `Except.ok r` for `callback(null, r)`. -/
structure Services where
  /-- The call `db.getConnection(cb)`. -/
  getConnection : Except Err Unit
  /-- The call `fields.list(list.id, cb)`; the field list is kept abstract as
  the list of field ids. -/
  fieldsList : Nat → Except Err (List Nat)
  /-- The call `fields.getRow(fieldList, subscription)`. -/
  getRow : List Nat → Subscription → List Row
  /-- The call `settings.list(keys, cb)`. -/
  settingsList : List String → Except Err ConfigItems
  /-- The call `helpers.injectCustomFormTemplates(defaultForm, { text, html }, cb)`. -/
  injectCustomFormTemplates : JSVal → TemplatePair → Except Err TemplatePair
  /-- The error, if any, that `mailer.sendMail` hands to its callback. -/
  mailerSendMail : Mail → MailContent → Option Err
  /-- The call `urllib.resolve(from, to)` on two strings: the resolved URL, or
  the error it throws. -/
  urlResolve : String → String → Except JSError String
  /-- The translation function `_`. -/
  translate : String → String
  /-- What `util.format` prints for the argument under a specifier other than
  `%s` and `%%`, `none` when the character is no specifier. -/
  formatOther : Char → String → Option String

/-- What a dispatch did: the invocations of the caller's `callback` (with the
error passed, `none` for `callback()`), the calls of `mailer.sendMail`, the
calls of `log.error`, and the error thrown inside a callback of the dispatch,
which ends it, if there is one. -/
structure Effects where
  callbacks : List (Option Err)
  mails : List (Mail × MailContent)
  logged : List (String × Err)
  thrown : Option JSError := none
  deriving DecidableEq, Repr

/-- Scanning loop of `util.format` with one argument after the format:
`consumed` tells whether the argument has been printed. -/
def utilFormatLoop (other : Char → String → Option String) (arg : String) :
    List Char → Bool → List Char
  | '%' :: c :: rest, consumed =>
    if c = '%' then '%' :: utilFormatLoop other arg rest consumed
    else if consumed then '%' :: c :: utilFormatLoop other arg rest consumed
    else if c = 's' then arg.data ++ utilFormatLoop other arg rest true
    else
      match other c arg with
      | some r => r.data ++ utilFormatLoop other arg rest true
      | none => '%' :: c :: utilFormatLoop other arg rest consumed
  | ch :: rest, consumed => ch :: utilFormatLoop other arg rest consumed
  | [], consumed => if consumed then [] else ' ' :: arg.data

/-- The call `util.format(f, arg)` for a string `arg`: the first specifier
prints the argument, `%%` prints a percent sign, and an argument that no
specifier printed is appended after a space. -/
def utilFormat (other : Char → String → Option String) (f arg : String) : String :=
  String.mk (utilFormatLoop other arg f.data false)

/-- The expression `name || []` inside `[].concat(...)`: the elements that a
name contributes. -/
def nameParts (name : Option String) : List String :=
  match name with
  | some s => if s != "" then [s] else []
  | none => []

/-- The call `urllib.resolve(base, reference)` of line 118: a `TypeError` when
the base is not a string, else what the module `url` does with the two
strings. -/
def urllibResolve (sv : Services) (base : JSVal) (reference : String) : Except JSError String :=
  match base with
  | .str b => sv.urlResolve b reference
  | _ => .error (.typeError "Parameter 'url' must be a string")

/-- The loop of lines 117-119 over the properties of `relativeUrls`, in the
order in which `for ... in` visits them: each path is resolved, which may
throw, and then written to `data`; a write to `__proto__` creates no
property. -/
def resolveRelativeUrls (sv : Services) (serviceUrl : JSVal) :
    List (String × String) → Data → Except JSError Data
  | [], data => .ok data
  | entry :: rest, data =>
    match urllibResolve sv serviceUrl entry.2 with
    | .ok url =>
      resolveRelativeUrls sv serviceUrl rest
        (if entry.1 = "__proto__" then data else data.set entry.1 (.str url))
    | .error e => .error e

/-- The object `data` built by lines 110-119 of `sendMail`, or the error
thrown while building it. -/
def mergeData (sv : Services) (list : MailingList) (configItems : ConfigItems)
    (relativeUrls : List (String × String)) : Except JSError Data :=
  resolveRelativeUrls sv configItems.serviceUrl relativeUrls
    [ ("title", .str list.name),
      ("homepage", configItems.defaultHomepage.or configItems.serviceUrl),
      ("contactAddress", configItems.defaultAddress),
      ("defaultPostaddress", configItems.defaultPostaddress) ]

/-- The function `sendMail` (lines 83-166). The nested callbacks are run in
program order; the result records which calls were made, not when. An error
thrown in the settings callback (line 118) ends the dispatch there. -/
def sendMail (sv : Services) (list : MailingList) (email template subject : String)
    (relativeUrls : List (String × String)) (mailOpts : MailOpts)
    (subscription : Subscription) : Effects :=
  match sv.getConnection with
  | .error err => { callbacks := [some err], mails := [], logged := [] }
  | .ok _ =>
    match sv.fieldsList list.id with
    | .error err => { callbacks := [some err], mails := [], logged := [] }
    | .ok fieldList =>
      let encryptionKeys : List String :=
        (sv.getRow fieldList subscription).foldl
          (fun keys field =>
            match field.value with
            | some value =>
              if field.type = "gpg" ∧ value ≠ "" then keys ++ [jsTrim value] else keys
            | none => keys)
          []
      match sv.settingsList ["defaultHomepage", "defaultFrom", "defaultAddress",
          "defaultPostaddress", "serviceUrl", "disableConfirmations"] with
      | .error err => { callbacks := [some err], mails := [], logged := [] }
      | .ok configItems =>
        if !mailOpts.ignoreDisableConfirmations && configItems.disableConfirmations.truthy then
          { callbacks := [], mails := [], logged := [] }
        else
          match mergeData sv list configItems relativeUrls with
          | .error e => { callbacks := [], mails := [], logged := [], thrown := some e }
          | .ok data =>
            let send (html text : TemplateRef) : Effects :=
              let mail : Mail :=
                { sender := { name := configItems.defaultFrom,
                              address := configItems.defaultAddress },
                  recipient := { name := .str (" ".intercalate
                                   (nameParts subscription.firstName ++ nameParts subscription.lastName)),
                                 address := .str email },
                  subject := utilFormat sv.formatOther subject list.name,
                  encryptionKeys := encryptionKeys }
              let content : MailContent := { html := html, text := text, data := data }
              { callbacks := [],
                mails := [(mail, content)],
                logged :=
                  match sv.mailerSendMail mail content with
                  | some err => [("Subscription", err)]
                  | none => [] }
            let text : TemplateRef :=
              { template := "subscription/mail-" ++ template ++ "-text.hbs",
                layout := none, type := none }
            let html : TemplateRef :=
              { template := "subscription/mail-" ++ template ++ "-html.mjml.hbs",
                layout := some "subscription/layout.mjml.hbs",
                type := some "mjml" }
            let sent : Effects :=
              match sv.injectCustomFormTemplates list.defaultForm { text := text, html := html } with
              | .error _ => send html text
              | .ok tmpl => send tmpl.html tmpl.text
            { sent with callbacks := sent.callbacks ++ [none] }

/-- The property names of the object assigned to `module.exports`
(lines 16-23). -/
def moduleExports : List String :=
  ["sendAlreadySubscribed", "sendConfirmAddressChange", "sendConfirmSubscription",
   "sendConfirmUnsubscription", "sendSubscriptionConfirmed", "sendUnsubscriptionConfirmed"]

/-- The expression `module.exports.sendMail`: the function `sendMail` if the
exports object has a property of that name, else `undefined`. -/
def moduleExportsSendMail :
    Option (Services → MailingList → String → String → String → List (String × String) →
      MailOpts → Subscription → Effects) :=
  if "sendMail" ∈ moduleExports then some sendMail else none

/-- The identifiers bound in the module: the module wrapper's parameters, the
bindings of lines 3-13 and the function declarations. -/
def moduleScope : List String :=
  ["exports", "require", "module", "__filename", "__dirname",
   "log", "config", "db", "fields", "settings", "mailer", "urllib", "helpers", "tools", "_",
   "util",
   "sendSubscriptionConfirmed", "sendAlreadySubscribed", "sendConfirmAddressChange",
   "sendConfirmSubscription", "sendConfirmUnsubscription", "sendUnsubscriptionConfirmed",
   "sendMail"]

/-- Evaluation of an identifier that is not a parameter of the running
function: a `ReferenceError` unless the module binds it. -/
def resolveIdentifier (name : String) : Except JSError Unit :=
  if name ∈ moduleScope then pure () else throw (.referenceError name)

/-- The call `module.exports.sendMail(...)`: a `TypeError` when the property is
`undefined`. -/
def callExportedSendMail (sv : Services) (list : MailingList) (email template subject : String)
    (relativeUrls : List (String × String)) (mailOpts : MailOpts)
    (subscription : Subscription) : Except JSError Effects :=
  match moduleExportsSendMail with
  | some f => pure (f sv list email template subject relativeUrls mailOpts subscription)
  | none => throw (.typeError "module.exports.sendMail is not a function")

/-- The function `sendSubscriptionConfirmed` (lines 25-32). The callee
`subscriptions.sendMail` and the argument `data.subscriptionData` are
evaluated first; the last line is the call they would make if both identifiers
were bound to this module and the subscription. -/
def sendSubscriptionConfirmed (sv : Services) (list : MailingList) (email : String)
    (subscription : Subscription) : Except JSError Effects := do
  let relativeUrls :=
    [ ("preferencesUrl", "/subscription/" ++ list.cid ++ "/manage/" ++ subscription.cid),
      ("unsubscribeUrl", "/subscription/" ++ list.cid ++ "/unsubscribe/" ++ subscription.cid) ]
  resolveIdentifier "subscriptions"
  resolveIdentifier "data"
  pure (sendMail sv list email "subscription-confirmed"
    (sv.translate "%s: Subscription Confirmed") relativeUrls
    { ignoreDisableConfirmations := false } subscription)

/-- The function `sendAlreadySubscribed` (lines 34-43). -/
def sendAlreadySubscribed (sv : Services) (list : MailingList) (email : String)
    (subscription : Subscription) : Except JSError Effects :=
  let mailOpts : MailOpts := { ignoreDisableConfirmations := true }
  let relativeUrls :=
    [ ("preferencesUrl", "/subscription/" ++ list.cid ++ "/manage/" ++ subscription.cid),
      ("unsubscribeUrl", "/subscription/" ++ list.cid ++ "/unsubscribe/" ++ subscription.cid) ]
  callExportedSendMail sv list email "already-subscribed"
    (sv.translate "%s: Email Address Already Registered") relativeUrls mailOpts subscription

/-- The function `sendConfirmAddressChange` (lines 45-53). -/
def sendConfirmAddressChange (sv : Services) (list : MailingList) (email cid : String)
    (subscription : Subscription) : Except JSError Effects :=
  let mailOpts : MailOpts := { ignoreDisableConfirmations := true }
  let relativeUrls := [("confirmUrl", "/subscription/confirm/" ++ cid)]
  callExportedSendMail sv list email "confirm-address-change"
    (sv.translate "%s: Please Confirm Email Change in Subscription") relativeUrls mailOpts
    subscription

/-- The function `sendConfirmSubscription` (lines 55-63). -/
def sendConfirmSubscription (sv : Services) (list : MailingList) (email cid : String)
    (subscription : Subscription) : Except JSError Effects :=
  let mailOpts : MailOpts := { ignoreDisableConfirmations := true }
  let relativeUrls := [("confirmUrl", "/subscription/confirm/" ++ cid)]
  callExportedSendMail sv list email "confirm-subscription"
    (sv.translate "%s: Please Confirm Subscription") relativeUrls mailOpts subscription

/-- The function `sendConfirmUnsubscription` (lines 65-73). -/
def sendConfirmUnsubscription (sv : Services) (list : MailingList) (email cid : String)
    (subscription : Subscription) : Except JSError Effects :=
  let mailOpts : MailOpts := { ignoreDisableConfirmations := true }
  let relativeUrls := [("confirmUrl", "/subscription/confirm/" ++ cid)]
  callExportedSendMail sv list email "confirm-unsubscription"
    (sv.translate "%s: Please Confirm Unsubscription") relativeUrls mailOpts subscription

/-- The function `sendUnsubscriptionConfirmed` (lines 75-80). The callee
`subscriptions.sendMail` is evaluated first; the last line is the call it would
make if the identifier were bound to this module. -/
def sendUnsubscriptionConfirmed (sv : Services) (list : MailingList) (email : String)
    (subscription : Subscription) : Except JSError Effects := do
  let relativeUrls :=
    [("subscribeUrl", "/subscription/" ++ list.cid ++ "?cid=" ++ subscription.cid)]
  resolveIdentifier "subscriptions"
  pure (sendMail sv list email "unsubscription-confirmed"
    (sv.translate "%s: Unsubscribe Confirmed") relativeUrls
    { ignoreDisableConfirmations := false } subscription)

/-! ## Fixtures used by the concrete evaluations -/

/-- A column naming function: the field's own column, else one derived from
its id. -/
def fixtureColumn (f : GroupedField) : String :=
  f.column.getD ("grouped_" ++ natToString f.id)

/-- A concrete instance of the imported helpers; dates are not parsed. -/
def fixtureShared : Shared :=
  { getFieldColumn := fixtureColumn
    formatDate := fun _ _ => ""
    parseDate := fun _ _ => .null
    formatBirthday := fun _ _ => ""
    parseBirthday := fun _ _ => .null
    dateToString := fun _ => "Invalid Date" }

/-- The identity translation. -/
def fixtureT (s : String) : String := s

/-- A field with column `merge_country`, no default value and two options. -/
def fixtureField : GroupedField :=
  { id := 7, column := some "merge_country", name := "Country", default_value := none,
    settings := { dateFormat := "us",
                  options := [{ key := "au", label := "Australia" },
                              { key := "at", label := "Austria" }] } }

/-- Settings with confirmations disabled. -/
def fixtureConfig : ConfigItems :=
  { defaultHomepage := .str "https://lists.example.com/",
    defaultFrom := .str "Lists",
    defaultAddress := .str "lists@example.com",
    defaultPostaddress := .str "1 Main Street",
    serviceUrl := .str "https://lists.example.com/",
    disableConfirmations := .str "1" }

/-- The scheme and authority of a URL text: all up to the first slash after
`//`. -/
def urlOrigin : List Char → List Char
  | '/' :: '/' :: rest => '/' :: '/' :: rest.takeWhile fun c => c != '/'
  | c :: rest => c :: urlOrigin rest
  | [] => []

/-- What `urllib.resolve` returns for a base `scheme://host/path` in lower
case without query and a reference that is an absolute path (one leading
slash): the scheme and host of the base followed by the reference. The
fixtures use it at such arguments only; at others it is no model of
`urllib.resolve`. -/
def fixtureUrlResolve (base reference : String) : String :=
  String.mk (urlOrigin base.data) ++ reference

/-- Services whose reads all succeed, with confirmations disabled, no custom
templates and a mailer that reports no error. -/
def fixtureServices : Services :=
  { getConnection := .ok ()
    fieldsList := fun _ => .ok [1, 2]
    getRow := fun _ _ => [{ type := "text", value := some "x" },
                          { type := "gpg", value := some " KEY " }]
    settingsList := fun _ => .ok fixtureConfig
    injectCustomFormTemplates := fun _ pair => .ok pair
    mailerSendMail := fun _ _ => none
    urlResolve := fun base rel => .ok (fixtureUrlResolve base rel)
    translate := fun s => s
    formatOther := fun _ _ => none }

/-- The same services with confirmations enabled. -/
def fixtureServicesEnabled : Services :=
  { fixtureServices with
    settingsList := fun _ => .ok { fixtureConfig with disableConfirmations := .str "" } }

/-- Services whose settings read fails. -/
def fixtureServicesNoSettings : Services :=
  { fixtureServices with settingsList := fun _ => .error "ER_SETTINGS" }

/-- Services with confirmations enabled, a custom-template lookup that fails
and a mailer that reports a delivery error. -/
def fixtureServicesFailing : Services :=
  { fixtureServicesEnabled with
    injectCustomFormTemplates := fun _ _ => .error "ER_FORM"
    mailerSendMail := fun _ _ => some "ECONNREFUSED" }

/-- A list. -/
def fixtureList : MailingList :=
  { id := 1, cid := "Hkj3", name := "News", defaultForm := .null }

/-- A subscription. -/
def fixtureSubscription : Subscription :=
  { cid := "s1", firstName := some "Ada", lastName := some "Lovelace" }

/-- A text field with column `merge_city`. -/
def fixtureTextField : GroupedField :=
  { id := 3, column := some "merge_city", name := "City", default_value := none,
    settings := { dateFormat := "us", options := [] } }

/-- The keys that `sendMail` asks `settings.list` for. -/
def settingsKeys : List String :=
  ["defaultHomepage", "defaultFrom", "defaultAddress", "defaultPostaddress", "serviceUrl",
   "disableConfirmations"]

/-! ## Kinds named by the statements -/

/-- The text-like kinds. -/
def textLikeKinds : List String := ["text", "website", "longtext", "gpg"]

/-- The single-select enumeration kinds. -/
def enumSingleKinds : List String :=
  ["dropdown-enum", "radio-enum", "radio-grouped", "dropdown-grouped"]

/-- The column of `groupedField` after `assignFormData` and then `assignEntity`
of kind `kind`, on a record `data` whose column holds `v`. -/
def roundTripColumn (sh : Shared) (t : String → String) (kind : String)
    (groupedField : GroupedField) (data : Data) (v : JSVal) : Option JSVal :=
  (fieldType? sh t kind).map fun ft =>
    (ft.assignEntity groupedField
      (ft.assignFormData groupedField (data.set (sh.getFieldColumn groupedField) v))).get
      (sh.getFieldColumn groupedField)

/-- The column of `groupedField` after `initFormData` of kind `kind`. -/
def initColumn (sh : Shared) (t : String → String) (kind : String)
    (groupedField : GroupedField) (data : Data) : Option JSVal :=
  (fieldType? sh t kind).map fun ft =>
    (ft.initFormData groupedField data).get (sh.getFieldColumn groupedField)

/-- The column of `groupedField` after `assignEntity` of kind `kind`, on a form
record `data` whose column holds `v`. -/
def assignEntityColumn (sh : Shared) (t : String → String) (kind : String)
    (groupedField : GroupedField) (data : Data) (v : JSVal) : Option JSVal :=
  (fieldType? sh t kind).map fun ft =>
    (ft.assignEntity groupedField (data.set (sh.getFieldColumn groupedField) v)).get
      (sh.getFieldColumn groupedField)

/-- The column of `groupedField` after `assignFormData` of kind `kind`, on a
record `data` whose column holds `v`. -/
def assignFormDataColumn (sh : Shared) (t : String → String) (kind : String)
    (groupedField : GroupedField) (data : Data) (v : JSVal) : Option JSVal :=
  (fieldType? sh t kind).map fun ft =>
    (ft.assignFormData groupedField (data.set (sh.getFieldColumn groupedField) v)).get
      (sh.getFieldColumn groupedField)

/-- The column of `groupedField` after `assignEntity` and then `assignFormData`
of kind `kind`, on a form record `data` whose column holds `v`. -/
def displayRoundTripColumn (sh : Shared) (t : String → String) (kind : String)
    (groupedField : GroupedField) (data : Data) (v : JSVal) : Option JSVal :=
  (fieldType? sh t kind).map fun ft =>
    (ft.assignFormData groupedField
      (ft.assignEntity groupedField (data.set (sh.getFieldColumn groupedField) v))).get
      (sh.getFieldColumn groupedField)

/-- The error of the field after `validate` of kind `kind`, on a form state
whose value for the field's column is `v`: `none` if the kind is unknown,
`some (.error e)` if `validate` throws. -/
def validateError (sh : Shared) (t : String → String) (kind : String)
    (groupedField : GroupedField) (state : FormState) (v : JSVal) :
    Option (Except JSError JSVal) :=
  (fieldType? sh t kind).map fun ft =>
    (ft.validate groupedField (state.setIn (sh.getFieldColumn groupedField) "value" v)).map
      fun s => s.getIn (sh.getFieldColumn groupedField) "error"

/-- The loop of lines 94-99 of `sendMail` over the rows of a subscription. -/
def collectEncryptionKeys (rows : List Row) : List String :=
  rows.foldl
    (fun keys field =>
      match field.value with
      | some value =>
        if field.type = "gpg" ∧ value ≠ "" then keys ++ [jsTrim value] else keys
      | none => keys)
    []

/-- The subjects of the messages that a call of an entry point hands to the
mailer: none when the call throws. -/
def subjectsSent (result : Except JSError Effects) : List String :=
  match result with
  | .ok effects => effects.mails.map fun m => m.1.subject
  | .error _ => []

/-- The merge data of the messages that a call of an entry point hands to the
mailer: none when the call throws. -/
def mergeDataSent (result : Except JSError Effects) : List Data :=
  match result with
  | .ok effects => effects.mails.map fun m => m.2.data
  | .error _ => []

/-- Services with confirmations enabled whose subscription has a `gpg` field
holding only white space. -/
def fixtureServicesBlankKey : Services :=
  { fixtureServicesEnabled with
    getRow := fun _ _ => [{ type := "gpg", value := some "  " }] }

/-- The mathematical value of a decimal literal
`[sign] digits [. digits] [e [sign] digits]`, after trimming, as a pair
`(m, e)` that stands for `m * 10 ^ e`; `none` for a text that is no decimal
literal. This is the value that string-to-number conversion rounds. -/
def decimalTextValue (s : String) : Option (Int × Int) :=
  let cs := (jsTrim s).data
  let neg := cs.head? = some '-'
  let cs := if cs.head? = some '-' ∨ cs.head? = some '+' then cs.tail else cs
  let ip := cs.takeWhile Char.isDigit
  let rest := cs.dropWhile Char.isDigit
  let fp := if rest.head? = some '.' then rest.tail.takeWhile Char.isDigit else []
  let rest := if rest.head? = some '.' then rest.tail.dropWhile Char.isDigit else rest
  let expNeg := rest.tail.head? = some '-'
  let expDigits :=
    if rest.tail.head? = some '-' ∨ rest.tail.head? = some '+' then rest.tail.tail
    else rest.tail
  if isStrUnsignedDecimalLiteral cs ∧ cs ≠ "Infinity".data then
    let m : Int := ((ip ++ fp).foldl decimalStep 0 : Nat)
    let e : Int := (expDigits.foldl decimalStep 0 : Nat)
    some (if neg then -m else m, (if expNeg then -e else e) - fp.length)
  else none

/-- The pair `(m, e)` stands for the integer `n`: `m * 10 ^ e = n`. -/
def denotesInt (v : Int × Int) (n : Int) : Prop :=
  n * 10 ^ (-v.2).toNat = v.1 * 10 ^ v.2.toNat

instance denotesIntDecidable (v : Int × Int) (n : Int) : Decidable (denotesInt v n) :=
  inferInstanceAs (Decidable (_ = _))

/-! ## The field form of `client/src/lists/fields/CUD.js` -/

/-- What the field form imports from `shared/validators`. -/
structure Validators where
  mergeTagValid : JSVal → Bool

/-- Modelled from the spec: `validators.mergeTagValid` (the module
`shared/validators` is not among the sources). The spec gives the pattern
`^[A-Z][A-Z0-9_]*$` for a merge-tag key; a value that is not a string is taken
as invalid. -/
def specMergeTagValid : JSVal → Bool
  | .str s =>
    match s.data with
    | [] => false
    | c :: rest => c.isUpper && rest.all fun d => d.isUpper || d.isDigit || d == '_'
  | _ => false

/-- The validators with the merge-tag rule of the spec. -/
def specValidators : Validators := { mergeTagValid := specMergeTagValid }

/-- The object held at `['key', 'serverValidation']`: the answer of the
validation REST call; `keyExists` is its property `exists`. -/
structure ServerValidation where
  keyExists : Bool
  deriving DecidableEq, Repr

/-- The form state of the field form: the values and errors of its fields,
and `state.getIn(['key', 'serverValidation'])`, `none` while no answer is
there. -/
structure FieldFormState where
  fields : FormState
  keyServerValidation : Option ServerValidation
  deriving DecidableEq, Repr

/-- The method `localValidateFormValues` (lines 96-121). -/
def localValidateFormValues (vd : Validators) (t : String → String) (state : FieldFormState) :
    FieldFormState :=
  let state : FieldFormState :=
    if !(state.fields.getIn "name" "value").truthy then
      { state with fields := state.fields.setIn "name" "error" (.str (t "Name must not be empty")) }
    else
      { state with fields := state.fields.setIn "name" "error" .null }
  let keyServerValidation := state.keyServerValidation
  if !vd.mergeTagValid (state.fields.getIn "key" "value") then
    { state with fields := state.fields.setIn "key" "error" (.str (t
        "Merge tag is invalid. May must be uppercase and contain only characters A-Z, 0-9, _. It must start with a letter.")) }
  else
    match keyServerValidation with
    | none =>
      { state with fields := state.fields.setIn "key" "error" (.str (t "Validation is in progress...")) }
    | some result =>
      if result.keyExists then
        { state with fields := state.fields.setIn "key" "error" (.str (t
            "Another field with the same merge tag exists. Please choose another merge tag.")) }
      else
        { state with fields := state.fields.setIn "key" "error" .null }

/-- The key error after `localValidateFormValues`. -/
def keyErrorAfterValidation (vd : Validators) (t : String → String) (state : FieldFormState) :
    JSVal :=
  (localValidateFormValues vd t state).fields.getIn "key" "error"

/-- The values of `FormSendMethod`. -/
inductive FormSendMethod where
  | PUT | POST
  deriving DecidableEq, Repr

/-- An error thrown by `validateAndSendFormValuesToURL`;
`dependencyNotFound` is the test
`error instanceof interoperableErrors.DependencyNotFoundError`. -/
structure SubmitError where
  dependencyNotFound : Bool
  description : String
  deriving DecidableEq, Repr

/-- The message argument of `setFormStatusMessage`: a plain text, or the
element `<span><strong>lead</strong> rest</span>`. -/
inductive StatusMessage where
  | text (s : String)
  | emphasised (lead rest : String)
  deriving DecidableEq, Repr

/-- The calls the submit handler makes on the form component. -/
inductive FormAction where
  | disableForm
  | enableForm
  | setFormStatusMessage (severity : String) (message : StatusMessage)
  | navigateToWithFlashMessage (path severity message : String)
  deriving DecidableEq, Repr

/-- The method `submitHandler` (lines 123-166). `send method url` is what the
awaited call `validateAndSendFormValuesToURL(sendMethod, url, ...)` does: it
returns whether the submit was successful, or throws. The result is the list
of calls made on the component and the error the handler throws, if any. -/
def submitHandler (t : String → String) (listId : Nat) (entityId : Option Nat)
    (send : FormSendMethod → String → Except SubmitError Bool) :
    List FormAction × Option SubmitError :=
  let (sendMethod, url) :=
    match entityId with
    | some id =>
      (FormSendMethod.PUT, "/rest/fields/" ++ natToString listId ++ "/" ++ natToString id)
    | none => (FormSendMethod.POST, "/rest/fields/" ++ natToString listId)
  let started : List FormAction :=
    [.disableForm, .setFormStatusMessage "info" (.text (t "Saving field ..."))]
  match send sendMethod url with
  | .ok submitSuccessful =>
    if submitSuccessful then
      (started ++ [.navigateToWithFlashMessage
        ("/lists/" ++ natToString listId ++ "/fields") "success" (t "Field saved")], none)
    else
      (started ++ [.enableForm, .setFormStatusMessage "warning"
        (.text (t "There are errors in the form. Please fix them and submit again."))], none)
  | .error error =>
    if error.dependencyNotFound then
      (started ++ [.setFormStatusMessage "danger"
        (.emphasised (t "Your updates cannot be saved.")
          (t "It seems that another field upon which sort field order was established has been deleted in the meantime. Refresh your page to start anew. Please note that your changes will be lost."))],
       none)
    else (started, some error)

/-- One element of `flds.data`, the answer of `/rest/fields/<list id>`; an
ordering value is `none` when it is null. -/
structure FieldRow where
  id : Nat
  name : String
  type : String
  order_list : Option Int
  order_subscribe : Option Int
  order_manage : Option Int
  deriving DecidableEq, Repr

/-- The argument `fld` of `getOrderOptions`. -/
inductive OrderColumn where
  | order_list | order_subscribe | order_manage
  deriving DecidableEq, Repr

/-- Property read `x[fld]`. -/
def FieldRow.order (x : FieldRow) : OrderColumn → Option Int
  | .order_list => x.order_list
  | .order_subscribe => x.order_subscribe
  | .order_manage => x.order_manage

/-- The number that `x[fld]` is in the subtraction `x[fld] - y[fld]`: null
counts as 0. -/
def FieldRow.orderNumber (x : FieldRow) (fld : OrderColumn) : Int := (x.order fld).getD 0

/-- One option of an ordering dropdown. -/
structure OrderOption where
  key : JSVal
  label : String
  deriving DecidableEq, Repr

/-- The `map` of line 55 over the sorted fields. `fieldTypeLabel type` is
`this.fieldTypes[type].label`, the table of the module `./field-types`;
a type that the table lacks makes the property read throw. -/
def orderEntries (fieldTypeLabel : String → Option String) :
    List FieldRow → Except JSError (List OrderOption)
  | [] => .ok []
  | x :: rest =>
    match fieldTypeLabel x.type with
    | some label =>
      (orderEntries fieldTypeLabel rest).map fun tail =>
        { key := .num x.id, label := x.name ++ " (" ++ label ++ ")" } :: tail
    | none => .error (.typeError "Cannot read property label of undefined")

/-- The function `getOrderOptions` of `loadOrderOptions` (lines 52-58).
`entityId` is `this.props.entity.id`, `none` without an entity. The method
`sort` is taken to be a stable sort by the comparator. -/
def getOrderOptions (t : String → String) (fieldTypeLabel : String → Option String)
    (entityId : Option Nat) (flds : List FieldRow) (fld : OrderColumn) :
    Except JSError (List OrderOption) :=
  let kept := flds.filter fun x =>
    (entityId.isNone || some x.id != entityId) && (x.order fld).isSome
  let sorted := kept.insertionSort fun x y => x.orderNumber fld ≤ y.orderNumber fld
  (orderEntries fieldTypeLabel sorted).map fun entries =>
    [{ key := .str "none", label := t "Not visible" }] ++ entries ++
      [{ key := .str "end", label := t "End of list" }]

/-! ## The error handlers of `app-builder.js` -/

/-- The error `err` handed to an error handler, as far as the handlers read
it: `message` and `status` are its properties, `interoperable` and
`notLoggedIn` the two `instanceof` tests, `type` and `data` its further
properties. -/
structure AppError where
  message : JSVal
  status : JSVal
  interoperable : Bool
  notLoggedIn : Bool
  type : JSVal
  data : JSVal
  deriving DecidableEq, Repr

/-- The request `req`, as far as the handlers read it. -/
structure Request where
  needsRESTJSONResponse : Bool
  needsAPIJSONResponse : Bool
  originalUrl : String
  deriving DecidableEq, Repr

/-- A value in a response body or in the locals of a view. -/
inductive BodyValue where
  | val (v : JSVal)
  | theError
  | emptyObject
  | emptyArray
  deriving DecidableEq, Repr

/-- The calls an error handler makes. -/
inductive HandlerAction where
  | next
  | consoleLog
  | status (code : JSVal)
  | json (body : List (String × BodyValue))
  | redirect (url : String)
  | render (view : String) (locals : List (String × BodyValue))
  deriving DecidableEq, Repr

/-- The functions the handlers call: `getTrustedUrl` of `lib/urls` and the
global `encodeURIComponent`. -/
structure AppEnv where
  getTrustedUrl : String → String
  encodeURIComponent : String → String

/-- The identifiers bound where the error handlers run: the module
wrapper's parameters, the bindings of lines 3-59, the function `createApp`
with its parameter and locals, and the handler's own parameters. -/
def appBuilderScope : List String :=
  ["exports", "require", "module", "__filename", "__dirname",
   "config", "log", "express", "bodyParser", "path", "favicon", "logger", "cookieParser",
   "session", "flash", "hbs", "handlebarsHelpers", "compression", "passport",
   "contextHelpers", "api", "reports", "subscription", "mosaico", "files", "links",
   "archive", "webhooks", "namespacesRest", "sendConfigurationsRest", "usersRest",
   "accountRest", "reportTemplatesRest", "reportsRest", "campaignsRest", "triggersRest",
   "listsRest", "formsRest", "fieldsRest", "importsRest", "importRunsRest", "sharesRest",
   "segmentsRest", "subscriptionsRest", "templatesRest", "mosaicoTemplatesRest",
   "blacklistRest", "editorsRest", "filesRest", "settingsRest", "index",
   "interoperableErrors", "getTrustedUrl", "AppType",
   "createApp", "appType", "app", "install404Fallback", "useWith404Fallback",
   "err", "req", "res", "next", "resp"]

/-- Evaluation of an identifier inside an error handler: a `ReferenceError`
unless it is bound. -/
def resolveAppIdentifier (name : String) : Except JSError Unit :=
  if name ∈ appBuilderScope then pure () else throw (.referenceError name)

/-- The expression `err.message || err`. -/
def errorMessageOrError (err : AppError) : BodyValue :=
  if err.message.truthy then .val err.message else .theError

/-- The object `resp` of the REST branch; `error` is what its property
`error` holds. -/
def restBody (err : AppError) (error : BodyValue) : List (String × BodyValue) :=
  [("message", .val err.message), ("error", error)] ++
    (if err.interoperable then [("type", .val err.type), ("data", .val err.data)] else [])

/-- The development error handler (lines 272-309); `none` is a falsy `err`. -/
def developmentErrorHandler (env : AppEnv) (err : Option AppError) (req : Request) :
    Except JSError (List HandlerAction) :=
  match err with
  | none => pure [.next]
  | some err =>
    if req.needsRESTJSONResponse then
      pure [.status (err.status.or (.num 500)), .json (restBody err .theError)]
    else if req.needsAPIJSONResponse then do
      let resp := [("error", errorMessageOrError err), ("data", BodyValue.emptyArray)]
      resolveAppIdentifier "status"
      pure [.status (err.status.or (.num 500)), .json resp]
    else if err.notLoggedIn then
      pure [.redirect (env.getTrustedUrl
        ("/account/login?next=" ++ env.encodeURIComponent req.originalUrl))]
    else
      pure [.status (err.status.or (.num 500)),
        .render "error" [("message", .val err.message), ("error", .theError)]]

/-- The production error handler (lines 314-353); `none` is a falsy `err`. -/
def productionErrorHandler (env : AppEnv) (err : Option AppError) (req : Request) :
    Except JSError (List HandlerAction) :=
  match err with
  | none => pure [.next]
  | some err =>
    if req.needsRESTJSONResponse then
      pure [.consoleLog, .status (err.status.or (.num 500)),
        .json (restBody err .emptyObject)]
    else if req.needsAPIJSONResponse then
      let resp := [("error", errorMessageOrError err), ("data", BodyValue.emptyArray)]
      pure [.consoleLog, .status (err.status.or (.num 500)), .json resp]
    else if err.notLoggedIn then
      pure [.consoleLog, .redirect (env.getTrustedUrl
        ("/account/login?next=" ++ env.encodeURIComponent req.originalUrl))]
    else
      pure [.consoleLog, .status (err.status.or (.num 500)),
        .render "error" [("message", .val err.message), ("error", .emptyObject)]]

/-! ## Fixtures for the field form and the error handlers -/

/-- A field whose default value `zz` is not the key of one of its options. -/
def fixtureFieldStrayDefault : GroupedField :=
  { fixtureField with default_value := some "zz" }

/-- A form state with name `Country`, the given key and server answer. -/
def fixtureFormState (key : String) (answer : Option ServerValidation) : FieldFormState :=
  { fields := [(("name", "value"), .str "Country"), (("key", "value"), .str key)],
    keyServerValidation := answer }

/-- Three fields of a list; the second is hidden from listings. -/
def fixtureFieldRows : List FieldRow :=
  [ { id := 11, name := "City", type := "text",
      order_list := some 2, order_subscribe := some 0, order_manage := some 0 },
    { id := 12, name := "Age", type := "number",
      order_list := none, order_subscribe := some 1, order_manage := some 1 },
    { id := 13, name := "Country", type := "dropdown-enum",
      order_list := some 1, order_subscribe := some 2, order_manage := some 2 } ]

/-- A label table that knows every type, labelling it by its name. -/
def fixtureTypeLabel (type : String) : Option String := some type

/-- An error with message `boom` and no status. -/
def fixtureAppError : AppError :=
  { message := .str "boom", status := .undefined, interoperable := false,
    notLoggedIn := false, type := .undefined, data := .undefined }

/-- A request under `/api`. -/
def fixtureApiRequest : Request :=
  { needsRESTJSONResponse := false, needsAPIJSONResponse := true, originalUrl := "/api/lists" }

/-- Helper functions that leave their argument unchanged. -/
def fixtureAppEnv : AppEnv := { getTrustedUrl := fun u => u, encodeURIComponent := fun u => u }

/-! ## Lemmas on records -/

theorem Data.get_set_same (data : Data) (col : String) (v : JSVal) :
    (data.set col v).get col = v := by
  induction data with
  | nil => simp [Data.set, Data.get]
  | cons e rest ih =>
    obtain ⟨k, w⟩ := e
    by_cases h : k = col
    · simp [Data.set, Data.get, h]
    · simp [Data.set, Data.get, h, ih]

theorem Data.get_set_other (data : Data) (col other : String) (v : JSVal) (h : other ≠ col) :
    (data.set col v).get other = data.get other := by
  induction data with
  | nil => simp [Data.set, Data.get, h.symm]
  | cons e rest ih =>
    obtain ⟨k, w⟩ := e
    by_cases hk : k = col
    · subst hk
      simp [Data.set, Data.get, h.symm]
    · by_cases ho : k = other
      · subst ho
        simp [Data.set, Data.get, hk]
      · simp [Data.set, Data.get, hk, ho, ih]

/-! ## Lemmas on decimal rendering and `parseInt` -/

theorem digitChar_mem (d : Nat) (h : d < 10) : Nat.digitChar d ∈ decimalChars := by
  interval_cases d <;> decide

theorem digitValue_digitChar (d : Nat) (h : d < 10) : digitValue 10 (Nat.digitChar d) = some d := by
  interval_cases d <;> decide

theorem decimalChars_digitValue : ∀ c ∈ decimalChars, (digitValue 10 c).isSome = true := by
  decide

theorem decimalChars_not_space : ∀ c ∈ decimalChars, isJSWhiteSpace c = false := by
  decide

theorem decimalChars_not_sign : ∀ c ∈ decimalChars, c ≠ '-' ∧ c ≠ '+' ∧ c ≠ 'x' ∧ c ≠ 'X' := by
  decide

theorem toDigitsCore_append (fuel : Nat) : ∀ (n : Nat) (ds : List Char),
    Nat.toDigitsCore 10 fuel n ds = Nat.toDigitsCore 10 fuel n [] ++ ds := by
  induction fuel with
  | zero => intro n ds; simp [Nat.toDigitsCore]
  | succ fuel ih =>
    intro n ds
    simp only [Nat.toDigitsCore]
    by_cases h : n / 10 = 0
    · simp [h]
    · simp only [h, if_false]
      rw [ih (n / 10) (Nat.digitChar (n % 10) :: ds), ih (n / 10) [Nat.digitChar (n % 10)]]
      simp

theorem toDigitsCore_spec (fuel : Nat) : ∀ n : Nat, n < fuel →
    (∀ c ∈ Nat.toDigitsCore 10 fuel n [], c ∈ decimalChars) ∧
    Nat.toDigitsCore 10 fuel n [] ≠ [] ∧
    (Nat.toDigitsCore 10 fuel n []).foldl decimalStep 0 = n := by
  induction fuel with
  | zero => intro n h; omega
  | succ fuel ih =>
    intro n hn
    have hd : n % 10 < 10 := Nat.mod_lt _ (by decide)
    simp only [Nat.toDigitsCore]
    by_cases h : n / 10 = 0
    · simp only [h, if_true]
      refine ⟨?_, by simp, ?_⟩
      · intro c hc
        simp only [List.mem_singleton] at hc
        subst hc
        exact digitChar_mem _ hd
      · simp only [List.foldl, decimalStep, digitValue_digitChar _ hd, Option.getD_some]
        omega
    · simp only [h, if_false]
      rw [toDigitsCore_append]
      have hlt : n / 10 < fuel := by omega
      obtain ⟨hall, _, hval⟩ := ih (n / 10) hlt
      refine ⟨?_, by simp, ?_⟩
      · intro c hc
        rcases List.mem_append.mp hc with hc | hc
        · exact hall c hc
        · simp only [List.mem_singleton] at hc
          subst hc
          exact digitChar_mem _ hd
      · simp only [List.foldl_append, List.foldl, hval, decimalStep,
          digitValue_digitChar _ hd, Option.getD_some]
        omega

theorem readDigits_decimal (l : List Char) : ∀ (acc : Nat) (seen : Bool),
    (∀ c ∈ l, c ∈ decimalChars) →
    readDigits 10 l acc seen = if l = [] ∧ seen = false then none
      else some (l.foldl decimalStep acc) := by
  induction l with
  | nil => intro acc seen _; cases seen <;> simp [readDigits]
  | cons c cs ih =>
    intro acc seen hall
    have hc := decimalChars_digitValue c (hall c (List.mem_cons_self _ _))
    obtain ⟨d, hd⟩ := Option.isSome_iff_exists.mp hc
    have hcs : ∀ x ∈ cs, x ∈ decimalChars := fun x hx => hall x (List.mem_cons_of_mem _ hx)
    simp [readDigits, hd, ih _ true hcs, decimalStep]

/-- Reading back the decimal rendering of an integer gives the integer. -/
theorem parseIntString_numToString (n : Int) : parseIntString (numToString n) = .num n := by
  obtain ⟨hall, hne, hval⟩ := toDigitsCore_spec (n.natAbs + 1) n.natAbs (Nat.lt_succ_self _)
  have hdata : (natToString n.natAbs).data = Nat.toDigitsCore 10 (n.natAbs + 1) n.natAbs [] := rfl
  obtain ⟨c, r, hcr⟩ := List.exists_cons_of_ne_nil hne
  rw [hcr] at hall hval
  have hcmem : c ∈ decimalChars := hall c (List.mem_cons_self _ _)
  have hspace := decimalChars_not_space c hcmem
  obtain ⟨hminus, hplus, -, -⟩ := decimalChars_not_sign c hcmem
  have hnohex : ¬ ((c :: r).take 2 = ['0', 'x'] ∨ (c :: r).take 2 = ['0', 'X']) := by
    cases r with
    | nil => simp
    | cons c2 r2 =>
      obtain ⟨-, -, hx, hX⟩ := decimalChars_not_sign c2
        (hall c2 (List.mem_cons_of_mem _ (List.mem_cons_self _ _)))
      simp [hx, hX]
  have hread : readDigits 10 (c :: r) 0 false = some n.natAbs := by
    rw [readDigits_decimal _ _ _ hall, hval]
    simp
  by_cases hneg : n < 0
  · have hs : (numToString n).data = '-' :: c :: r := by
      simp [numToString, hneg, hdata, hcr]
    have h1 : isJSWhiteSpace '-' = false := by decide
    simp only [parseIntString, hs, List.dropWhile_cons, h1]
    simp only [Bool.false_eq_true, if_false, List.head?_cons, true_or, if_true, List.tail_cons,
      hnohex, hread]
    simp [abs_of_neg hneg]
  · have hs : (numToString n).data = c :: r := by
      simp [numToString, hneg, hdata, hcr]
    simp only [parseIntString, hs, List.dropWhile_cons, hspace]
    simp only [Bool.false_eq_true, if_false, List.head?_cons, Option.some.injEq, hminus, hplus,
      or_self, hnohex, hread]
    simp [abs_of_nonneg (not_lt.mp hneg)]

/-! ## Lemmas on the table -/

theorem fieldType?_textLike (sh : Shared) (t : String → String) (kind : String)
    (hk : kind ∈ textLikeKinds) :
    ∃ long, fieldType? sh t kind = some (stringFieldType sh long) := by
  simp only [textLikeKinds, List.mem_cons, List.mem_singleton, List.not_mem_nil, or_false] at hk
  rcases hk with h | h | h | h <;> subst h
  · exact ⟨false, rfl⟩
  · exact ⟨false, rfl⟩
  · exact ⟨true, rfl⟩
  · exact ⟨true, rfl⟩

theorem fieldType?_enumSingle (sh : Shared) (t : String → String) (kind : String)
    (hk : kind ∈ enumSingleKinds) :
    ∃ c, fieldType? sh t kind = some (enumSingleFieldType sh c) := by
  simp only [enumSingleKinds, List.mem_cons, List.mem_singleton, List.not_mem_nil, or_false]
    at hk
  rcases hk with h | h | h | h <;> subst h
  · exact ⟨.Dropdown, rfl⟩
  · exact ⟨.RadioGroup, rfl⟩
  · exact ⟨.RadioGroup, rfl⟩
  · exact ⟨.Dropdown, rfl⟩

theorem fieldType?_number (sh : Shared) (t : String → String) :
    fieldType? sh t "number" = some (numberFieldType sh t) := rfl

/-- Closed form of the initial value of a single-select enumeration field. -/
theorem initColumn_enumSingle (sh : Shared) (t : String → String) (kind : String)
    (hk : kind ∈ enumSingleKinds) (f : GroupedField) (data : Data) :
    initColumn sh t kind f data =
      some (if f.defaultValueSet then .str (f.default_value.getD "")
            else .str ((f.settings.options.head?.map EnumOption.key).getD "")) := by
  obtain ⟨c, hc⟩ := fieldType?_enumSingle sh t kind hk
  simp only [initColumn, hc, Option.map_some', enumSingleFieldType]
  by_cases hd : f.defaultValueSet = true
  · simp [hd, Data.get_set_same]
  · cases ho : f.settings.options <;> simp [hd, ho, Data.get_set_same]

/-! ## Statements about the field type table -/

/-- C1 (as stated, refuted): the `indexable` flag of `dropdown-enum` is not
true. -/
theorem indexable_dropdown_enum_not_true :
    ¬ (indexable? fixtureShared fixtureT "dropdown-enum" = some true) := by
  decide

/-- C1 (amended): in the table returned by `getFieldTypes` the `indexable` flag
is true for text, website, longtext, gpg, number, date and birthday, and false
for json, dropdown-enum, radio-enum, checkbox-grouped, radio-grouped and
dropdown-grouped. -/
theorem getFieldTypes_indexable (sh : Shared) (t : String → String) :
    (getFieldTypes sh t).map (fun e => (e.1, e.2.indexable)) =
      [("text", true), ("website", true), ("longtext", true), ("gpg", true),
       ("number", true), ("date", true), ("birthday", true), ("json", false),
       ("dropdown-enum", false), ("radio-enum", false), ("checkbox-grouped", false),
       ("radio-grouped", false), ("dropdown-grouped", false)] := by
  rfl

/-- C8 (as stated, refuted): for kind text, `assignEntity` leaves an empty
string in the field's column; it does not become null. -/
theorem text_assignEntity_empty_not_null :
    assignEntityColumn fixtureShared fixtureT "text" fixtureTextField [] (.str "")
        = some (.str "") ∧
      assignEntityColumn fixtureShared fixtureT "text" fixtureTextField [] (.str "")
        ≠ some .null := by
  decide

/-- C8 (amended): for every text-like kind (text, website, longtext, gpg),
`assignEntity` returns the form record unchanged, so a value of the field's
column, the empty string included, stays what it was. -/
theorem textLike_assignEntity_unchanged (sh : Shared) (t : String → String) (kind : String)
    (hk : kind ∈ textLikeKinds) (f : GroupedField) (data : Data) (v : JSVal) :
    (fieldType? sh t kind).map (fun ft => ft.assignEntity f data) = some data ∧
      assignEntityColumn sh t kind f data v = some v := by
  obtain ⟨long, hl⟩ := fieldType?_textLike sh t kind hk
  simp [assignEntityColumn, hl, stringFieldType, Data.get_set_same]

/-- C8 (amended), at kind gpg and an empty string. -/
theorem textLike_assignEntity_unchanged_witness :
    "gpg" ∈ textLikeKinds ∧
      assignEntityColumn fixtureShared fixtureT "gpg" fixtureTextField [] (.str "")
        = some (.str "") :=
  ⟨by decide,
   (textLike_assignEntity_unchanged fixtureShared fixtureT "gpg" (by decide) fixtureTextField []
     (.str "")).2⟩

/-- C9 (as stated, refuted): for kind text, a stored null comes back from
`assignFormData` followed by `assignEntity` as the empty string, not as
null. -/
theorem text_roundTrip_null_not_null :
    roundTripColumn fixtureShared fixtureT "text" fixtureTextField [] .null = some (.str "") ∧
      roundTripColumn fixtureShared fixtureT "text" fixtureTextField [] .null ≠ some .null := by
  decide

/-- C9 (amended): for every text-like kind, `assignFormData` followed by
`assignEntity` gives back every stored string unchanged and turns a stored null
into the empty string; for the number kind it gives back every stored non-zero
integer `n` (within the range in which JavaScript numbers are exact
integers). -/
theorem scalar_roundTrip (sh : Shared) (t : String → String) (f : GroupedField) (data : Data) :
    (∀ kind ∈ textLikeKinds,
      (∀ s : String, roundTripColumn sh t kind f data (.str s) = some (.str s)) ∧
        roundTripColumn sh t kind f data .null = some (.str "")) ∧
    (∀ n : Int, n ≠ 0 → n.natAbs < 2 ^ 53 →
      roundTripColumn sh t "number" f data (.num n) = some (.num n)) := by
  refine ⟨?_, ?_⟩
  · intro kind hk
    obtain ⟨long, hl⟩ := fieldType?_textLike sh t kind hk
    refine ⟨?_, ?_⟩
    · intro s
      by_cases hs : s = ""
      · simp [roundTripColumn, hl, stringFieldType, Data.get_set_same, JSVal.or, JSVal.truthy, hs]
      · simp [roundTripColumn, hl, stringFieldType, Data.get_set_same, JSVal.or, JSVal.truthy, hs]
    · simp [roundTripColumn, hl, stringFieldType, Data.get_set_same, JSVal.or, JSVal.truthy]
  · intro n hn _
    simp [roundTripColumn, fieldType?_number, numberFieldType, Data.get_set_same, JSVal.truthy,
      hn, parseInt, jsToString, parseIntString_numToString]

/-- C9 (amended), at kind longtext with a string and at kind number with -42. -/
theorem scalar_roundTrip_witness :
    "longtext" ∈ textLikeKinds ∧
      roundTripColumn fixtureShared fixtureT "longtext" fixtureTextField [] (.str "Oslo")
        = some (.str "Oslo") ∧
      (-42 : Int) ≠ 0 ∧ (-42 : Int).natAbs < 2 ^ 53 ∧
      roundTripColumn fixtureShared fixtureT "number" fixtureTextField [] (.num (-42))
        = some (.num (-42)) :=
  ⟨by decide,
   ((scalar_roundTrip fixtureShared fixtureT fixtureTextField []).1 "longtext" (by decide)).1
     "Oslo",
   by decide, by decide,
   (scalar_roundTrip fixtureShared fixtureT fixtureTextField []).2 (-42) (by decide)
     (by decide)⟩

/-- C10: for every single-select enumeration kind (dropdown-enum, radio-enum,
radio-grouped, dropdown-grouped), `initFormData` sets the field's column to
`default_value` if it is set (a non-empty string), else to the key of the first
option, else to the empty string; hence two fields with the same
`default_value` whose option lists have the same first element get the same
initial value. -/
theorem enumSingle_initFormData (sh : Shared) (t : String → String) (kind : String)
    (hk : kind ∈ enumSingleKinds) (f : GroupedField) (data : Data) :
    (∀ d, f.default_value = some d → d ≠ "" → initColumn sh t kind f data = some (.str d)) ∧
    (f.default_value = none ∨ f.default_value = some "" →
      (∀ first rest, f.settings.options = first :: rest →
        initColumn sh t kind f data = some (.str first.key)) ∧
      (f.settings.options = [] → initColumn sh t kind f data = some (.str ""))) ∧
    (∀ (g : GroupedField) (data' : Data), g.default_value = f.default_value →
      g.settings.options.head? = f.settings.options.head? →
      initColumn sh t kind g data' = initColumn sh t kind f data) := by
  refine ⟨?_, ?_, ?_⟩
  · intro d hd hne
    simp [initColumn_enumSingle sh t kind hk, GroupedField.defaultValueSet, hd, hne]
  · intro hunset
    have hset : f.defaultValueSet = false := by
      rcases hunset with h | h <;> simp [GroupedField.defaultValueSet, h]
    refine ⟨?_, ?_⟩
    · intro first rest ho
      simp [initColumn_enumSingle sh t kind hk, hset, ho]
    · intro ho
      simp [initColumn_enumSingle sh t kind hk, hset, ho]
  · intro g data' hd ho
    simp [initColumn_enumSingle sh t kind hk, GroupedField.defaultValueSet, hd, ho]

/-- C10, at kind radio-grouped for a field without default value whose first
option has key `au`. -/
theorem enumSingle_initFormData_witness :
    "radio-grouped" ∈ enumSingleKinds ∧
      fixtureField.default_value = none ∧
      initColumn fixtureShared fixtureT "radio-grouped" fixtureField [] = some (.str "au") :=
  ⟨by decide, rfl,
   ((enumSingle_initFormData fixtureShared fixtureT "radio-grouped" (by decide) fixtureField
      []).2.1 (Or.inl rfl)).1 _ _ rfl⟩

/-! ## Lemmas on the message built by `sendMail` -/

theorem resolveRelativeUrls_ok (sv : Services) (serviceUrl : JSVal)
    (relativeUrls : List (String × String))
    (hurl : ∀ entry ∈ relativeUrls, ∃ url, urllibResolve sv serviceUrl entry.2 = .ok url) :
    ∀ data : Data, ∃ data', resolveRelativeUrls sv serviceUrl relativeUrls data = .ok data' := by
  induction relativeUrls with
  | nil => intro data; exact ⟨data, rfl⟩
  | cons entry rest ih =>
    intro data
    obtain ⟨url, hu⟩ := hurl entry (List.mem_cons_self _ _)
    obtain ⟨data', hd⟩ := ih (fun e he => hurl e (List.mem_cons_of_mem _ he))
      (if entry.1 = "__proto__" then data else data.set entry.1 (.str url))
    exact ⟨data', by simp only [resolveRelativeUrls, hu, hd]⟩

/-- When the reads succeed, the notification is not suppressed and every
relative URL resolves, `sendMail` hands exactly one message to the mailer,
calls back once without an error and throws nothing; only the templates of the
message depend on the custom-template lookup. -/
theorem sendMail_effects (sv : Services) (list : MailingList)
    (email template subject : String) (relativeUrls : List (String × String))
    (mailOpts : MailOpts) (subscription : Subscription) (fieldList : List Nat)
    (configItems : ConfigItems)
    (hconn : sv.getConnection = .ok ())
    (hfields : sv.fieldsList list.id = .ok fieldList)
    (hsettings : sv.settingsList settingsKeys = .ok configItems)
    (hsend : mailOpts.ignoreDisableConfirmations = true ∨
      configItems.disableConfirmations.truthy = false)
    (hurl : ∀ entry ∈ relativeUrls,
      ∃ url, urllibResolve sv configItems.serviceUrl entry.2 = .ok url) :
    ∃ data html text,
      mergeData sv list configItems relativeUrls = .ok data ∧
      (html, text) =
        (match sv.injectCustomFormTemplates list.defaultForm
            { text := { template := "subscription/mail-" ++ template ++ "-text.hbs",
                        layout := none, type := none },
              html := { template := "subscription/mail-" ++ template ++ "-html.mjml.hbs",
                        layout := some "subscription/layout.mjml.hbs",
                        type := some "mjml" } } with
         | .error _ =>
           (({ template := "subscription/mail-" ++ template ++ "-html.mjml.hbs",
               layout := some "subscription/layout.mjml.hbs", type := some "mjml" } :
               TemplateRef),
            ({ template := "subscription/mail-" ++ template ++ "-text.hbs",
               layout := none, type := none } : TemplateRef))
         | .ok tmpl => (tmpl.html, tmpl.text)) ∧
      sendMail sv list email template subject relativeUrls mailOpts subscription =
        { callbacks := [none],
          mails :=
            [({ sender := { name := configItems.defaultFrom,
                            address := configItems.defaultAddress },
                recipient :=
                  { name := .str (" ".intercalate
                      (nameParts subscription.firstName ++ nameParts subscription.lastName)),
                    address := .str email },
                subject := utilFormat sv.formatOther subject list.name,
                encryptionKeys := collectEncryptionKeys (sv.getRow fieldList subscription) },
              { html := html, text := text, data := data })],
          logged :=
            (match sv.mailerSendMail
                { sender := { name := configItems.defaultFrom,
                              address := configItems.defaultAddress },
                  recipient :=
                    { name := .str (" ".intercalate
                        (nameParts subscription.firstName ++ nameParts subscription.lastName)),
                      address := .str email },
                  subject := utilFormat sv.formatOther subject list.name,
                  encryptionKeys := collectEncryptionKeys (sv.getRow fieldList subscription) }
                { html := html, text := text, data := data } with
             | some err => [("Subscription", err)]
             | none => []),
          thrown := none } := by
  have hgate : (!mailOpts.ignoreDisableConfirmations && configItems.disableConfirmations.truthy)
      = false := by
    rcases hsend with h | h <;> simp [h]
  simp only [settingsKeys] at hsettings
  obtain ⟨data, hdata⟩ := resolveRelativeUrls_ok sv configItems.serviceUrl relativeUrls hurl
    [ ("title", .str list.name),
      ("homepage", configItems.defaultHomepage.or configItems.serviceUrl),
      ("contactAddress", configItems.defaultAddress),
      ("defaultPostaddress", configItems.defaultPostaddress) ]
  have hmerge : mergeData sv list configItems relativeUrls = .ok data := hdata
  simp only [sendMail, hconn, hfields, hsettings, hgate, hmerge]
  cases sv.injectCustomFormTemplates list.defaultForm _ with
  | error e => exact ⟨data, _, _, rfl, rfl, rfl⟩
  | ok tmpl => exact ⟨data, _, _, rfl, rfl, rfl⟩

/-- When the settings' `serviceUrl` is not a string and a relative URL is
given, `sendMail` throws at line 118: no message, no callback. -/
theorem sendMail_serviceUrl_missing :
    sendMail { fixtureServicesEnabled with
        settingsList := fun _ => .ok { fixtureConfig with
          disableConfirmations := .str "", serviceUrl := .undefined } }
      fixtureList "a@b.com" "confirm-subscription" "%s: Please Confirm Subscription"
      [("confirmUrl", "/subscription/confirm/c1")] { ignoreDisableConfirmations := true }
      fixtureSubscription =
      { callbacks := [], mails := [], logged := [],
        thrown := some (.typeError "Parameter 'url' must be a string") } := by
  decide

/-! ## Statements about the notification dispatcher -/

/-- C2 (evaluation at the failing input): with empty mail options and
`disableConfirmations` set, and all reads succeeding, `sendMail` hands no
message to the mailer and does not invoke the caller's callback at all. -/
theorem sendMail_suppressed_never_calls_back :
    (sendMail fixtureServices fixtureList "a@b.com" "subscription-confirmed"
        "%s: Subscription Confirmed" [] { ignoreDisableConfirmations := false }
        fixtureSubscription).mails = [] ∧
      (sendMail fixtureServices fixtureList "a@b.com" "subscription-confirmed"
        "%s: Subscription Confirmed" [] { ignoreDisableConfirmations := false }
        fixtureSubscription).callbacks = [] := by
  decide

/-- C3 (evaluation at the failing input): each of `sendConfirmSubscription`,
`sendConfirmAddressChange`, `sendConfirmUnsubscription` and
`sendAlreadySubscribed` throws a `TypeError` on every input, because
`module.exports` has no property `sendMail`; no message reaches the mailer. -/
theorem confirmation_entry_points_throw (sv : Services) (list : MailingList)
    (email cid : String) (subscription : Subscription) :
    sendConfirmSubscription sv list email cid subscription
        = .error (.typeError "module.exports.sendMail is not a function") ∧
      sendConfirmAddressChange sv list email cid subscription
        = .error (.typeError "module.exports.sendMail is not a function") ∧
      sendConfirmUnsubscription sv list email cid subscription
        = .error (.typeError "module.exports.sendMail is not a function") ∧
      sendAlreadySubscribed sv list email subscription
        = .error (.typeError "module.exports.sendMail is not a function") :=
  ⟨rfl, rfl, rfl, rfl⟩

/-- C4 (evaluation at the failing input): `sendSubscriptionConfirmed` and
`sendUnsubscriptionConfirmed` throw a `ReferenceError` on every input, because
the identifier `subscriptions` is not bound; the generic dispatch is never
reached. -/
theorem confirmed_entry_points_throw (sv : Services) (list : MailingList) (email : String)
    (subscription : Subscription) :
    sendSubscriptionConfirmed sv list email subscription
        = .error (.referenceError "subscriptions") ∧
      sendUnsubscriptionConfirmed sv list email subscription
        = .error (.referenceError "subscriptions") :=
  ⟨rfl, rfl⟩

/-- C5: template resolution in `sendMail` is total. When the reads succeed,
the notification is not suppressed and every relative URL resolves (so that
the dispatch reaches the lookup), then for every notification kind
`template`: if the custom-template lookup fails the mailer receives the default
pair (text `subscription/mail-<kind>-text.hbs`; html
`subscription/mail-<kind>-html.mjml.hbs` with layout
`subscription/layout.mjml.hbs` and type `mjml`), if it succeeds the mailer
receives the returned pair, and in both cases exactly one message is sent, the
caller's callback is invoked once without an error and nothing is thrown. -/
theorem sendMail_template_resolution (sv : Services) (list : MailingList)
    (email template subject : String) (relativeUrls : List (String × String))
    (mailOpts : MailOpts) (subscription : Subscription) (fieldList : List Nat)
    (configItems : ConfigItems)
    (hconn : sv.getConnection = .ok ())
    (hfields : sv.fieldsList list.id = .ok fieldList)
    (hsettings : sv.settingsList settingsKeys = .ok configItems)
    (hsend : mailOpts.ignoreDisableConfirmations = true ∨
      configItems.disableConfirmations.truthy = false)
    (hurl : ∀ entry ∈ relativeUrls,
      ∃ url, urllibResolve sv configItems.serviceUrl entry.2 = .ok url) :
    (∀ err,
      sv.injectCustomFormTemplates list.defaultForm
          { text := { template := "subscription/mail-" ++ template ++ "-text.hbs",
                      layout := none, type := none },
            html := { template := "subscription/mail-" ++ template ++ "-html.mjml.hbs",
                      layout := some "subscription/layout.mjml.hbs", type := some "mjml" } }
        = .error err →
      ((sendMail sv list email template subject relativeUrls mailOpts subscription).mails.map
        fun m => (m.2.text, m.2.html)) =
        [({ template := "subscription/mail-" ++ template ++ "-text.hbs",
            layout := none, type := none },
          { template := "subscription/mail-" ++ template ++ "-html.mjml.hbs",
            layout := some "subscription/layout.mjml.hbs", type := some "mjml" })]) ∧
    (∀ tmpl,
      sv.injectCustomFormTemplates list.defaultForm
          { text := { template := "subscription/mail-" ++ template ++ "-text.hbs",
                      layout := none, type := none },
            html := { template := "subscription/mail-" ++ template ++ "-html.mjml.hbs",
                      layout := some "subscription/layout.mjml.hbs", type := some "mjml" } }
        = .ok tmpl →
      ((sendMail sv list email template subject relativeUrls mailOpts subscription).mails.map
        fun m => (m.2.text, m.2.html)) = [(tmpl.text, tmpl.html)]) ∧
    (sendMail sv list email template subject relativeUrls mailOpts subscription).mails.length
      = 1 ∧
    (sendMail sv list email template subject relativeUrls mailOpts subscription).callbacks
      = [none] ∧
    (sendMail sv list email template subject relativeUrls mailOpts subscription).thrown
      = none := by
  obtain ⟨data, html, text, -, hpair, h⟩ := sendMail_effects sv list email template subject relativeUrls mailOpts subscription
    fieldList configItems hconn hfields hsettings hsend hurl
  rw [h]
  refine ⟨?_, ?_, rfl, rfl, rfl⟩
  · intro err herr
    rw [herr] at hpair
    simp only [Prod.mk.injEq] at hpair
    simp [hpair.1, hpair.2]
  · intro tmpl htmpl
    rw [htmpl] at hpair
    simp only [Prod.mk.injEq] at hpair
    simp [hpair.1, hpair.2]

/-- C5, at kind confirm-subscription with a failing custom-template lookup. -/
theorem sendMail_template_resolution_witness :
    ((sendMail fixtureServicesFailing fixtureList "a@b.com" "confirm-subscription"
        "%s: Please Confirm Subscription" [("confirmUrl", "/subscription/confirm/c1")]
        { ignoreDisableConfirmations := true } fixtureSubscription).mails.map
      fun m => (m.2.text, m.2.html)) =
      [({ template := "subscription/mail-confirm-subscription-text.hbs",
          layout := none, type := none },
        { template := "subscription/mail-confirm-subscription-html.mjml.hbs",
          layout := some "subscription/layout.mjml.hbs", type := some "mjml" })] ∧
    (sendMail fixtureServicesFailing fixtureList "a@b.com" "confirm-subscription"
        "%s: Please Confirm Subscription" [("confirmUrl", "/subscription/confirm/c1")]
        { ignoreDisableConfirmations := true } fixtureSubscription).callbacks = [none] :=
  have h := sendMail_template_resolution fixtureServicesFailing fixtureList "a@b.com"
    "confirm-subscription" "%s: Please Confirm Subscription"
    [("confirmUrl", "/subscription/confirm/c1")] { ignoreDisableConfirmations := true }
    fixtureSubscription [1, 2] { fixtureConfig with disableConfirmations := .str "" }
    rfl rfl rfl (Or.inl rfl) (fun _ _ => ⟨_, rfl⟩)
  ⟨h.1 "ER_FORM" rfl, h.2.2.2.1⟩

/-- C6: in `sendMail`, if obtaining the connection, listing the fields or
reading the settings fails with an error `err`, the caller's callback is
invoked exactly once, with `err`, and no message is handed to the mailer. -/
theorem sendMail_read_failure (sv : Services) (list : MailingList)
    (email template subject : String) (relativeUrls : List (String × String))
    (mailOpts : MailOpts) (subscription : Subscription) (err : Err)
    (hfail : sv.getConnection = .error err ∨
      (sv.getConnection = .ok () ∧ sv.fieldsList list.id = .error err) ∨
      (sv.getConnection = .ok () ∧ (∃ fieldList, sv.fieldsList list.id = .ok fieldList) ∧
        sv.settingsList settingsKeys = .error err)) :
    (sendMail sv list email template subject relativeUrls mailOpts subscription).callbacks
        = [some err] ∧
      (sendMail sv list email template subject relativeUrls mailOpts subscription).mails
        = [] := by
  simp only [settingsKeys] at hfail
  rcases hfail with h | ⟨hc, h⟩ | ⟨hc, ⟨fieldList, hf⟩, h⟩
  · simp [sendMail, h]
  · simp [sendMail, hc, h]
  · simp [sendMail, hc, hf, h]

/-- C6, at services whose settings read fails. -/
theorem sendMail_read_failure_witness :
    (sendMail fixtureServicesNoSettings fixtureList "a@b.com" "confirm-subscription"
        "%s: Please Confirm Subscription" [] { ignoreDisableConfirmations := true }
        fixtureSubscription).callbacks = [some "ER_SETTINGS"] ∧
      (sendMail fixtureServicesNoSettings fixtureList "a@b.com" "confirm-subscription"
        "%s: Please Confirm Subscription" [] { ignoreDisableConfirmations := true }
        fixtureSubscription).mails = [] :=
  sendMail_read_failure fixtureServicesNoSettings fixtureList "a@b.com" "confirm-subscription"
    "%s: Please Confirm Subscription" [] { ignoreDisableConfirmations := true }
    fixtureSubscription "ER_SETTINGS" (Or.inr (Or.inr ⟨rfl, ⟨[1, 2], rfl⟩, rfl⟩))

/-- C7: in `sendMail`, once the connection, field and settings reads succeed,
the notification is not suppressed and every relative URL resolves, the
caller's callback is invoked once with no error whatever the mailer reports;
an error reported by the mailer for the message sent is passed to `log.error`
and to nothing else. -/
theorem sendMail_mailer_error_only_logged (sv : Services) (list : MailingList)
    (email template subject : String) (relativeUrls : List (String × String))
    (mailOpts : MailOpts) (subscription : Subscription) (fieldList : List Nat)
    (configItems : ConfigItems)
    (hconn : sv.getConnection = .ok ())
    (hfields : sv.fieldsList list.id = .ok fieldList)
    (hsettings : sv.settingsList settingsKeys = .ok configItems)
    (hsend : mailOpts.ignoreDisableConfirmations = true ∨
      configItems.disableConfirmations.truthy = false)
    (hurl : ∀ entry ∈ relativeUrls,
      ∃ url, urllibResolve sv configItems.serviceUrl entry.2 = .ok url) :
    (sendMail sv list email template subject relativeUrls mailOpts subscription).callbacks
        = [none] ∧
      (sendMail sv list email template subject relativeUrls mailOpts subscription).thrown
        = none ∧
      (sendMail sv list email template subject relativeUrls mailOpts subscription).logged =
        (sendMail sv list email template subject relativeUrls mailOpts subscription).mails.filterMap
          fun m => (sv.mailerSendMail m.1 m.2).map fun e => ("Subscription", e) := by
  obtain ⟨data, html, text, -, -, h⟩ := sendMail_effects sv list email template subject relativeUrls mailOpts subscription
    fieldList configItems hconn hfields hsettings hsend hurl
  rw [h]
  refine ⟨rfl, rfl, ?_⟩
  simp only [List.filterMap_cons, List.filterMap_nil]
  split <;> simp_all

/-- C7, at services whose mailer reports a delivery error. -/
theorem sendMail_mailer_error_only_logged_witness :
    (sendMail fixtureServicesFailing fixtureList "a@b.com" "confirm-subscription"
        "%s: Please Confirm Subscription" [("confirmUrl", "/subscription/confirm/c1")]
        { ignoreDisableConfirmations := false } fixtureSubscription).callbacks = [none] ∧
      (sendMail fixtureServicesFailing fixtureList "a@b.com" "confirm-subscription"
        "%s: Please Confirm Subscription" [("confirmUrl", "/subscription/confirm/c1")]
        { ignoreDisableConfirmations := false } fixtureSubscription).logged
        = [("Subscription", "ECONNREFUSED")] :=
  have h := sendMail_mailer_error_only_logged fixtureServicesFailing fixtureList "a@b.com"
    "confirm-subscription" "%s: Please Confirm Subscription"
    [("confirmUrl", "/subscription/confirm/c1")]
    { ignoreDisableConfirmations := false } fixtureSubscription [1, 2]
    { fixtureConfig with disableConfirmations := .str "" } rfl rfl rfl (Or.inr rfl)
    (fun _ _ => ⟨_, rfl⟩)
  ⟨h.1, by rw [h.2.2]; decide⟩

/-! ## Statements about display and stored values -/

/-- C11: for every single-select enumeration kind, `assignFormData` on a record
whose column is null yields the same column value as `initFormData` for that
field, and on a record whose column holds a non-null value it leaves that
value unchanged (the stored value takes precedence over `default_value` and the
first option). -/
theorem enumSingle_assignFormData (sh : Shared) (t : String → String) (kind : String)
    (hk : kind ∈ enumSingleKinds) (f : GroupedField) (data data' : Data) :
    assignFormDataColumn sh t kind f data .null = initColumn sh t kind f data' ∧
      (∀ v : JSVal, v ≠ .null → assignFormDataColumn sh t kind f data v = some v) := by
  obtain ⟨c, hc⟩ := fieldType?_enumSingle sh t kind hk
  refine ⟨?_, ?_⟩
  · rw [initColumn_enumSingle sh t kind hk]
    simp only [assignFormDataColumn, hc, Option.map_some', enumSingleFieldType,
      Data.get_set_same]
    by_cases hd : f.defaultValueSet = true
    · simp [hd, Data.get_set_same]
    · cases ho : f.settings.options <;> simp [hd, Data.get_set_same]
  · intro v hv
    simp [assignFormDataColumn, hc, enumSingleFieldType, Data.get_set_same, hv]

/-- C11, at kind dropdown-enum: a null column becomes the first option key, a
stored key stays. -/
theorem enumSingle_assignFormData_witness :
    "dropdown-enum" ∈ enumSingleKinds ∧
      assignFormDataColumn fixtureShared fixtureT "dropdown-enum" fixtureField [] .null
        = initColumn fixtureShared fixtureT "dropdown-enum" fixtureField [] ∧
      (JSVal.str "at") ≠ .null ∧
      assignFormDataColumn fixtureShared fixtureT "dropdown-enum" fixtureField [] (.str "at")
        = some (.str "at") :=
  ⟨by decide,
   (enumSingle_assignFormData fixtureShared fixtureT "dropdown-enum" (by decide) fixtureField
     [] []).1,
   by decide,
   (enumSingle_assignFormData fixtureShared fixtureT "dropdown-enum" (by decide) fixtureField
     [] []).2 (.str "at") (by decide)⟩

/-- C12 (evaluation at the failing input): for the number kind, `assignFormData`
renders the stored number 0 as the empty string, not as the text `0`. -/
theorem number_assignFormData_zero_blank :
    assignFormDataColumn fixtureShared fixtureT "number" fixtureTextField [] (.num 0)
        = some (.str "") ∧
      assignFormDataColumn fixtureShared fixtureT "number" fixtureTextField [] (.num 0)
        ≠ some (.str "0") := by
  decide

/-- C15: `radio-grouped` behaves identically to `radio-enum` and
`dropdown-grouped` identically to `dropdown-enum`: for every field, record and
form state, the table entries agree in `initFormData`, `assignFormData`,
`assignEntity`, `validate` and `indexable`. -/
theorem grouped_same_as_enum (sh : Shared) (t : String → String) (f : GroupedField)
    (data : Data) (state : FormState) :
    ∀ pair ∈ [("radio-grouped", "radio-enum"), ("dropdown-grouped", "dropdown-enum")],
      ∃ grouped plain,
        fieldType? sh t pair.1 = some grouped ∧ fieldType? sh t pair.2 = some plain ∧
        grouped.initFormData f data = plain.initFormData f data ∧
        grouped.assignFormData f data = plain.assignFormData f data ∧
        grouped.assignEntity f data = plain.assignEntity f data ∧
        grouped.validate f state = plain.validate f state ∧
        grouped.indexable = plain.indexable := by
  intro pair hp
  simp only [List.mem_cons, List.mem_singleton, List.not_mem_nil, or_false] at hp
  rcases hp with h | h <;> subst h
  · exact ⟨enumSingleFieldType sh .RadioGroup, enumSingleFieldType sh .RadioGroup,
      rfl, rfl, rfl, rfl, rfl, rfl, rfl⟩
  · exact ⟨enumSingleFieldType sh .Dropdown, enumSingleFieldType sh .Dropdown,
      rfl, rfl, rfl, rfl, rfl, rfl, rfl⟩

/-- C15, at the pair radio-grouped and radio-enum. -/
theorem grouped_same_as_enum_witness :
    ∃ grouped plain,
      fieldType? fixtureShared fixtureT "radio-grouped" = some grouped ∧
      fieldType? fixtureShared fixtureT "radio-enum" = some plain ∧
      grouped.initFormData fixtureField [] = plain.initFormData fixtureField [] ∧
      grouped.assignFormData fixtureField [] = plain.assignFormData fixtureField [] ∧
      grouped.assignEntity fixtureField [] = plain.assignEntity fixtureField [] ∧
      grouped.validate fixtureField [] = plain.validate fixtureField [] ∧
      grouped.indexable = plain.indexable :=
  grouped_same_as_enum fixtureShared fixtureT fixtureField [] []
    ("radio-grouped", "radio-enum") (by decide)

/-- C16: for the checkbox-grouped kind and every list of selected option keys
(the empty one included), `assignEntity` followed by `assignFormData` yields
exactly the same selection in the field's column. -/
theorem checkboxGrouped_roundTrip (sh : Shared) (t : String → String) (f : GroupedField)
    (data : Data) (selected : List String) :
    displayRoundTripColumn sh t "checkbox-grouped" f data (.arr selected)
      = some (.arr selected) := by
  have h : fieldType? sh t "checkbox-grouped" = some (enumMultipleFieldType sh .CheckBoxGroup) :=
    rfl
  simp [displayRoundTripColumn, h, enumMultipleFieldType, Data.get_set_same]

/-! ## Lemmas on form states and numeric texts -/

theorem FormState.getIn_setIn_same (state : FormState) (col attr : String) (v : JSVal) :
    (state.setIn col attr v).getIn col attr = v := by
  induction state with
  | nil => simp [FormState.setIn, FormState.getIn]
  | cons e rest ih =>
    obtain ⟨k, w⟩ := e
    by_cases h : k = (col, attr)
    · simp [FormState.setIn, FormState.getIn, h]
    · simp [FormState.setIn, FormState.getIn, h, ih]

theorem dropWhile_of_all_false (p : Char → Bool) (l : List Char) (h : ∀ c ∈ l, p c = false) :
    l.dropWhile p = l := by
  cases l with
  | nil => rfl
  | cons c r => simp [List.dropWhile, h c (List.mem_cons_self _ _)]

theorem jsTrim_of_no_space (l : List Char) (h : ∀ c ∈ l, isJSWhiteSpace c = false) :
    jsTrim (String.mk l) = String.mk l := by
  have h2 : ∀ c ∈ l.reverse, isJSWhiteSpace c = false := fun c hc => h c (List.mem_reverse.mp hc)
  simp [jsTrim, dropWhile_of_all_false _ l h, dropWhile_of_all_false _ l.reverse h2]

theorem mk_ne_empty (l : List Char) (h : l ≠ []) : String.mk l ≠ "" := by
  intro he
  have hd := congrArg String.data he
  exact h hd

theorem signedChars_facts : ∀ c ∈ '-' :: decimalChars,
    isJSWhiteSpace c = false ∧ c ≠ 'x' ∧ c ≠ 'X' ∧ c ≠ 'o' ∧ c ≠ 'O' ∧ c ≠ 'b' ∧ c ≠ 'B' := by
  decide

theorem decimalChars_isDigit : ∀ c ∈ decimalChars, c.isDigit = true := by
  decide

theorem isNonDecimalIntegerLiteral_signed (cs : List Char)
    (h : ∀ c ∈ cs, c ∈ '-' :: decimalChars) : isNonDecimalIntegerLiteral cs = false := by
  unfold isNonDecimalIntegerLiteral
  split
  all_goals first
    | rfl
    | (exfalso
       have h2 := signedChars_facts _ (h _ (List.mem_cons_of_mem _ (List.mem_cons_self _ _)))
       simp at h2)

theorem isStrUnsignedDecimalLiteral_digits (l : List Char) (hne : l ≠ [])
    (h : ∀ c ∈ l, c ∈ decimalChars) : isStrUnsignedDecimalLiteral l = true := by
  have hd : ∀ c ∈ l, c.isDigit = true := fun c hc => decimalChars_isDigit c (h c hc)
  have htake : l.takeWhile Char.isDigit = l := List.takeWhile_eq_self_iff.mpr hd
  have hdrop : l.dropWhile Char.isDigit = [] := List.dropWhile_eq_nil_iff.mpr hd
  unfold isStrUnsignedDecimalLiteral
  split
  · rfl
  · simp [htake, hdrop, isExponentPart, hne]

/-- The decimal text of an integer: its characters, and how the number kind
reads it. -/
theorem numToString_facts (n : Int) :
    jsTrim (numToString n) = numToString n ∧ numToString n ≠ "" ∧
      isNaNString (numToString n) = false := by
  obtain ⟨hall, hne, -⟩ := toDigitsCore_spec (n.natAbs + 1) n.natAbs (Nat.lt_succ_self _)
  have hdata : (natToString n.natAbs).data = Nat.toDigitsCore 10 (n.natAbs + 1) n.natAbs [] := rfl
  generalize Nat.toDigitsCore 10 (n.natAbs + 1) n.natAbs [] = l at hall hne hdata
  have hnat : natToString n.natAbs = String.mk l := by
    cases hs : natToString n.natAbs
    simp [hs] at hdata
    simp [hdata]
  have hlit : isStrUnsignedDecimalLiteral l = true := isStrUnsignedDecimalLiteral_digits l hne hall
  obtain ⟨c, r, hcr⟩ := List.exists_cons_of_ne_nil hne
  obtain ⟨hminus, hplus, -, -⟩ := decimalChars_not_sign c (hall c (by simp [hcr]))
  by_cases hneg : n < 0
  · have hstr : numToString n = String.mk ('-' :: l) := by
      simp [numToString, hneg, hnat]
      rfl
    have hsigned : ∀ x ∈ '-' :: l, x ∈ '-' :: decimalChars := by
      intro x hx
      rcases List.mem_cons.mp hx with hx | hx
      · simp [hx]
      · exact List.mem_cons_of_mem _ (hall x hx)
    have hspace : ∀ x ∈ '-' :: l, isJSWhiteSpace x = false :=
      fun x hx => (signedChars_facts x (hsigned x hx)).1
    have htrim := jsTrim_of_no_space _ hspace
    refine ⟨by rw [hstr, htrim], by rw [hstr]; exact mk_ne_empty _ (by simp), ?_⟩
    simp [isNaNString, hstr, htrim, isStrNumericLiteral, hlit]
  · have hstr : numToString n = String.mk l := by
      simp [numToString, hneg, hnat]
    have hsigned : ∀ x ∈ l, x ∈ '-' :: decimalChars :=
      fun x hx => List.mem_cons_of_mem _ (hall x hx)
    have hspace : ∀ x ∈ l, isJSWhiteSpace x = false :=
      fun x hx => (signedChars_facts x (hsigned x hx)).1
    have htrim := jsTrim_of_no_space _ hspace
    refine ⟨by rw [hstr, htrim], by rw [hstr]; exact mk_ne_empty _ hne, ?_⟩
    have hbranch : isStrNumericLiteral l = true := by
      subst hcr
      simp only [isStrNumericLiteral, Bool.or_eq_true]
      right
      split
      · rename_i heq; simp at heq; exact absurd heq.1 hplus
      · rename_i heq; simp at heq; exact absurd heq.1 hminus
      · exact hlit
    simp [isNaNString, hstr, htrim, hbranch]

theorem decimalTextValue_numToString (n : Int) :
    decimalTextValue (numToString n) = some (n, 0) := by
  obtain ⟨htrim, -, -⟩ := numToString_facts n
  obtain ⟨hall, hne, hval⟩ := toDigitsCore_spec (n.natAbs + 1) n.natAbs (Nat.lt_succ_self _)
  have hdata : (natToString n.natAbs).data = Nat.toDigitsCore 10 (n.natAbs + 1) n.natAbs [] := rfl
  generalize Nat.toDigitsCore 10 (n.natAbs + 1) n.natAbs [] = l at hall hne hval hdata
  have hd : ∀ c ∈ l, c.isDigit = true := fun c hc => decimalChars_isDigit c (hall c hc)
  have htake : l.takeWhile Char.isDigit = l := List.takeWhile_eq_self_iff.mpr hd
  have hdrop : l.dropWhile Char.isDigit = [] := List.dropWhile_eq_nil_iff.mpr hd
  have hlit : isStrUnsignedDecimalLiteral l = true := isStrUnsignedDecimalLiteral_digits l hne hall
  have hinf : l ≠ "Infinity".data := by
    intro h
    have hI := hall 'I' (by rw [h]; decide)
    revert hI
    decide
  obtain ⟨c, r, hcr⟩ := List.exists_cons_of_ne_nil hne
  obtain ⟨hminus, hplus, -, -⟩ := decimalChars_not_sign c (hall c (by simp [hcr]))
  by_cases hneg : n < 0
  · have hs : (numToString n).data = '-' :: l := by
      simp [numToString, hneg, hdata]
    simp only [decimalTextValue, htrim, hs, List.head?_cons, true_or, if_true, List.tail_cons,
      htake, hdrop, hlit]
    simp [hval, abs_of_neg hneg]
    exact hinf
  · have hs : (numToString n).data = l := by
      simp [numToString, hneg, hdata]
    simp only [decimalTextValue, htrim, hs]
    subst hcr
    simp only [List.head?_cons, Option.some.injEq, hminus, hplus, or_self, if_false, htake,
      hdrop, hlit]
    simp [hval, hinf, abs_of_nonneg (not_lt.mp hneg)]

theorem validateError_number (sh : Shared) (t : String → String) (f : GroupedField)
    (state : FormState) (raw : String) :
    validateError sh t "number" f state (.str raw) =
      some (.ok (if jsTrim raw ≠ "" ∧ isNaNString (jsTrim raw) = true
        then .str (t "Value must be a number") else .null)) := by
  simp only [validateError, fieldType?_number, Option.map_some', numberFieldType,
    FormState.getIn_setIn_same]
  split <;> simp [Except.map, pure, Except.pure, FormState.getIn_setIn_same]

/-- C13 (as stated, refuted): the number kind's `validate` accepts the display
value `1.5` (the error is null), and `assignEntity` stores the number 1, which
is not the numeric value 15 * 10 ^ (-1) of that text. -/
theorem number_assignEntity_truncates :
    validateError fixtureShared fixtureT "number" fixtureTextField [] (.str "1.5")
        = some (.ok .null) ∧
      assignEntityColumn fixtureShared fixtureT "number" fixtureTextField [] (.str "1.5")
        = some (.num 1) ∧
      decimalTextValue "1.5" = some (15, -1) ∧
      ¬ denotesInt (15, -1) 1 :=
  ⟨rfl, by decide, by decide, by decide⟩

/-- C13 (amended): for the number kind and every display value that is the
decimal text of an integer `n` (an optional minus sign and digits, within the
range in which JavaScript numbers are exact integers), `validate` accepts the
value and `assignEntity` stores the number `n`, which is the numeric value of
that text. -/
theorem number_assignEntity_integer_text (sh : Shared) (t : String → String)
    (f : GroupedField) (data : Data) (state : FormState) (n : Int)
    (_hn : n.natAbs < 2 ^ 53) :
    validateError sh t "number" f state (.str (numToString n)) = some (.ok .null) ∧
      assignEntityColumn sh t "number" f data (.str (numToString n)) = some (.num n) ∧
      (∃ v, decimalTextValue (numToString n) = some v ∧ denotesInt v n) := by
  obtain ⟨htrim, hne, hnan⟩ := numToString_facts n
  refine ⟨?_, ?_, ⟨(n, 0), decimalTextValue_numToString n, by simp [denotesInt]⟩⟩
  · rw [validateError_number, htrim]
    simp [hnan]
  · simp [assignEntityColumn, fieldType?_number, numberFieldType, Data.get_set_same, parseInt,
      jsToString, parseIntString_numToString]

/-- C13 (amended), at the text of -42. -/
theorem number_assignEntity_integer_text_witness :
    (-42 : Int).natAbs < 2 ^ 53 ∧
      validateError fixtureShared fixtureT "number" fixtureTextField []
        (.str (numToString (-42))) = some (.ok .null) ∧
      assignEntityColumn fixtureShared fixtureT "number" fixtureTextField []
        (.str (numToString (-42))) = some (.num (-42)) :=
  have h := number_assignEntity_integer_text fixtureShared fixtureT fixtureTextField [] []
    (-42) (by decide)
  ⟨by decide, h.1, h.2.1⟩

/-- C14: for the number kind, `validate` sets the field's error to the message
`Value must be a number` (as given by the translation function `t`) if and only
if the submitted value, after trimming, is non-empty and not numeric; otherwise
it sets the field's error to null. -/
theorem number_validate_error (sh : Shared) (t : String → String) (f : GroupedField)
    (state : FormState) (raw : String) :
    (validateError sh t "number" f state (.str raw)
        = some (.ok (.str (t "Value must be a number")))
      ↔ (jsTrim raw ≠ "" ∧ isNaNString (jsTrim raw) = true)) ∧
    (¬ (jsTrim raw ≠ "" ∧ isNaNString (jsTrim raw) = true) →
      validateError sh t "number" f state (.str raw) = some (.ok .null)) := by
  rw [validateError_number]
  by_cases h : jsTrim raw ≠ "" ∧ isNaNString (jsTrim raw) = true
  · simp [h]
  · simp only [h, if_false, not_false_eq_true, forall_true_left, and_true, iff_false]
    intro hc
    simp at hc

/-- C14, at the submitted values `12px` (rejected) and ` 7 ` (accepted). -/
theorem number_validate_error_witness :
    validateError fixtureShared fixtureT "number" fixtureTextField [] (.str "12px")
        = some (.ok (.str "Value must be a number")) ∧
      validateError fixtureShared fixtureT "number" fixtureTextField [] (.str " 7 ")
        = some (.ok .null) :=
  ⟨(number_validate_error fixtureShared fixtureT fixtureTextField [] "12px").1.mpr (by decide),
   (number_validate_error fixtureShared fixtureT fixtureTextField [] " 7 ").2 (by decide)⟩

/-! ## Lemmas on the parts of the message -/

theorem collectEncryptionKeys_foldl (rows : List Row) : ∀ acc : List String,
    rows.foldl
        (fun keys field =>
          match field.value with
          | some value =>
            if field.type = "gpg" ∧ value ≠ "" then keys ++ [jsTrim value] else keys
          | none => keys)
        acc =
      acc ++ rows.filterMap fun row =>
        match row.value with
        | some value => if row.type = "gpg" ∧ value ≠ "" then some (jsTrim value) else none
        | none => none := by
  induction rows with
  | nil => intro acc; simp
  | cons row rest ih =>
    intro acc
    simp only [List.foldl_cons, ih, List.filterMap_cons]
    cases hv : row.value with
    | none => simp
    | some value =>
      by_cases hc : row.type = "gpg" ∧ value ≠ ""
      · simp [hc]
      · simp [hc]

theorem intercalate_two (a b : String) : " ".intercalate [a, b] = a ++ " " ++ b := by
  simp [String.intercalate, String.intercalate.go]

theorem intercalate_one (a : String) : " ".intercalate [a] = a := by
  simp [String.intercalate, String.intercalate.go]

/-! ## Statements about the message handed to the mailer -/

/-- C17 (as stated, refuted): a `gpg` row whose value is made of white space
only passes the emptiness test and is trimmed afterwards, so the empty string
is an element of `encryptionKeys`. -/
theorem encryptionKeys_contains_empty :
    ((sendMail fixtureServicesBlankKey fixtureList "a@b.com" "confirm-subscription"
        "%s: Please Confirm Subscription" [] { ignoreDisableConfirmations := true }
        fixtureSubscription).mails.map fun m => m.1.encryptionKeys) = [[""]] ∧
      ∃ m ∈ (sendMail fixtureServicesBlankKey fixtureList "a@b.com" "confirm-subscription"
        "%s: Please Confirm Subscription" [] { ignoreDisableConfirmations := true }
        fixtureSubscription).mails, "" ∈ m.1.encryptionKeys := by
  decide

/-- C17 (amended): in `sendMail`, when a message is handed to the mailer (the
reads succeed, the notification is not suppressed and every relative URL
resolves), its `encryptionKeys` are exactly the values obtained by taking, in
row order, every row of type gpg whose value is a non-empty string, and
trimming that value. -/
theorem encryptionKeys_trimmed_gpg_values (sv : Services) (list : MailingList)
    (email template subject : String) (relativeUrls : List (String × String))
    (mailOpts : MailOpts) (subscription : Subscription) (fieldList : List Nat)
    (configItems : ConfigItems)
    (hconn : sv.getConnection = .ok ())
    (hfields : sv.fieldsList list.id = .ok fieldList)
    (hsettings : sv.settingsList settingsKeys = .ok configItems)
    (hsend : mailOpts.ignoreDisableConfirmations = true ∨
      configItems.disableConfirmations.truthy = false)
    (hurl : ∀ entry ∈ relativeUrls,
      ∃ url, urllibResolve sv configItems.serviceUrl entry.2 = .ok url) :
    ∃ m, (sendMail sv list email template subject relativeUrls mailOpts subscription).mails
        = [m] ∧
      m.1.encryptionKeys =
        (sv.getRow fieldList subscription).filterMap fun row =>
          match row.value with
          | some value => if row.type = "gpg" ∧ value ≠ "" then some (jsTrim value) else none
          | none => none := by
  obtain ⟨data, html, text, -, -, h⟩ := sendMail_effects sv list email template subject
    relativeUrls mailOpts subscription fieldList configItems hconn hfields hsettings hsend hurl
  rw [h]
  refine ⟨_, rfl, ?_⟩
  simp only [collectEncryptionKeys, collectEncryptionKeys_foldl, List.nil_append]

/-- C17 (amended), at a subscription with a text row and a gpg row ` KEY `. -/
theorem encryptionKeys_trimmed_gpg_values_witness :
    ∃ m, (sendMail fixtureServicesEnabled fixtureList "a@b.com" "confirm-subscription"
        "%s: Please Confirm Subscription" [("confirmUrl", "/subscription/confirm/c1")]
        { ignoreDisableConfirmations := false } fixtureSubscription).mails = [m] ∧
      m.1.encryptionKeys = ["KEY"] := by
  obtain ⟨m, hm, hk⟩ := encryptionKeys_trimmed_gpg_values fixtureServicesEnabled fixtureList
    "a@b.com" "confirm-subscription" "%s: Please Confirm Subscription"
    [("confirmUrl", "/subscription/confirm/c1")]
    { ignoreDisableConfirmations := false } fixtureSubscription [1, 2]
    { fixtureConfig with disableConfirmations := .str "" } rfl rfl rfl (Or.inr rfl)
    (fun _ _ => ⟨_, rfl⟩)
  exact ⟨m, hm, by rw [hk]; decide⟩

/-- C18: the recipient name passed to the mailer (a message is passed when
the reads succeed, the notification is not suppressed and every relative URL
resolves) is the subscription's first and last name joined by a single space
with empty or missing parts omitted: both present gives `first last`, only one
present gives that one with no extra space, neither gives the empty string. -/
theorem recipient_name_joined (sv : Services) (list : MailingList)
    (email template subject : String) (relativeUrls : List (String × String))
    (mailOpts : MailOpts) (subscription : Subscription) (fieldList : List Nat)
    (configItems : ConfigItems)
    (hconn : sv.getConnection = .ok ())
    (hfields : sv.fieldsList list.id = .ok fieldList)
    (hsettings : sv.settingsList settingsKeys = .ok configItems)
    (hsend : mailOpts.ignoreDisableConfirmations = true ∨
      configItems.disableConfirmations.truthy = false)
    (hurl : ∀ entry ∈ relativeUrls,
      ∃ url, urllibResolve sv configItems.serviceUrl entry.2 = .ok url) :
    ∃ m, (sendMail sv list email template subject relativeUrls mailOpts subscription).mails
        = [m] ∧
      (∀ first last, subscription.firstName = some first → first ≠ "" →
        subscription.lastName = some last → last ≠ "" →
        m.1.recipient.name = .str (first ++ " " ++ last)) ∧
      (∀ first, subscription.firstName = some first → first ≠ "" →
        (subscription.lastName = none ∨ subscription.lastName = some "") →
        m.1.recipient.name = .str first) ∧
      (∀ last, (subscription.firstName = none ∨ subscription.firstName = some "") →
        subscription.lastName = some last → last ≠ "" →
        m.1.recipient.name = .str last) ∧
      ((subscription.firstName = none ∨ subscription.firstName = some "") →
        (subscription.lastName = none ∨ subscription.lastName = some "") →
        m.1.recipient.name = .str "") := by
  obtain ⟨data, html, text, -, -, h⟩ := sendMail_effects sv list email template subject
    relativeUrls mailOpts subscription fieldList configItems hconn hfields hsettings hsend hurl
  rw [h]
  have habsent : ∀ x : Option String, (x = none ∨ x = some "") → nameParts x = [] := by
    intro x hx
    rcases hx with hx | hx <;> simp [nameParts, hx]
  have hpresent : ∀ (x : Option String) (v : String), x = some v → v ≠ "" →
      nameParts x = [v] := by
    intro x v hx hv
    simp [nameParts, hx, hv]
  refine ⟨_, rfl, ?_, ?_, ?_, ?_⟩
  · intro first last hf hfne hl hlne
    simp only [hpresent _ _ hf hfne, hpresent _ _ hl hlne, List.singleton_append,
      intercalate_two]
  · intro first hf hfne hl
    simp only [hpresent _ _ hf hfne, habsent _ hl, List.append_nil, intercalate_one]
  · intro last hf hl hlne
    simp only [hpresent _ _ hl hlne, habsent _ hf, List.nil_append, intercalate_one]
  · intro hf hl
    simp only [habsent _ hf, habsent _ hl, List.append_nil]
    rfl

/-- C18, at a subscription with first name `Ada` and last name `Lovelace`. -/
theorem recipient_name_joined_witness :
    ∃ m, (sendMail fixtureServicesEnabled fixtureList "a@b.com" "confirm-subscription"
        "%s: Please Confirm Subscription" [("confirmUrl", "/subscription/confirm/c1")]
        { ignoreDisableConfirmations := false } fixtureSubscription).mails = [m] ∧
      m.1.recipient.name = .str "Ada Lovelace" := by
  obtain ⟨m, hm, hboth, -⟩ := recipient_name_joined fixtureServicesEnabled fixtureList
    "a@b.com" "confirm-subscription" "%s: Please Confirm Subscription"
    [("confirmUrl", "/subscription/confirm/c1")]
    { ignoreDisableConfirmations := false } fixtureSubscription [1, 2]
    { fixtureConfig with disableConfirmations := .str "" } rfl rfl rfl (Or.inr rfl)
    (fun _ _ => ⟨_, rfl⟩)
  exact ⟨m, hm, hboth "Ada" "Lovelace" rfl (by decide) rfl (by decide)⟩

/-- The generic dispatch, called with the arguments written at line 62 and a
string `serviceUrl`, hands the mailer the subject and the `confirmUrl` that
the spec describes. -/
theorem sendMail_confirm_subscription_example :
    ((sendMail fixtureServicesEnabled fixtureList "a@b.com" "confirm-subscription"
        "%s: Please Confirm Subscription" [("confirmUrl", "/subscription/confirm/c1")]
        { ignoreDisableConfirmations := true } fixtureSubscription).mails.map
      fun m => (m.1.subject, m.2.data.get "confirmUrl")) =
      [("News: Please Confirm Subscription",
        .str "https://lists.example.com/subscription/confirm/c1")] := by
  decide

/-- C19 (evaluation at the failing input): on every input each of the six
entry points throws before the generic dispatch is called, so no subject is
handed to the mailer for any of the six notification kinds, where the claim
has the list name followed by `: ` and the phrase of the kind. -/
theorem entry_points_send_no_subject (sv : Services) (list : MailingList)
    (email cid : String) (subscription : Subscription) :
    subjectsSent (sendSubscriptionConfirmed sv list email subscription) = [] ∧
      subjectsSent (sendAlreadySubscribed sv list email subscription) = [] ∧
      subjectsSent (sendConfirmAddressChange sv list email cid subscription) = [] ∧
      subjectsSent (sendConfirmSubscription sv list email cid subscription) = [] ∧
      subjectsSent (sendConfirmUnsubscription sv list email cid subscription) = [] ∧
      subjectsSent (sendUnsubscriptionConfirmed sv list email subscription) = [] :=
  ⟨rfl, rfl, rfl, rfl, rfl, rfl⟩

/-- C20 (evaluation at the failing input): on every input and for every cid
each of the three confirmation entry points throws before the generic
dispatch is called, so no merge data, hence no `confirmUrl`, is handed to the
mailer. -/
theorem confirmation_entry_points_send_no_merge_data (sv : Services) (list : MailingList)
    (email cid : String) (subscription : Subscription) :
    mergeDataSent (sendConfirmSubscription sv list email cid subscription) = [] ∧
      mergeDataSent (sendConfirmAddressChange sv list email cid subscription) = [] ∧
      mergeDataSent (sendConfirmUnsubscription sv list email cid subscription) = [] :=
  ⟨rfl, rfl, rfl⟩

/-! ## Statements about the field form -/

theorem FormState.getIn_setIn_other (state : FormState) (col attr col' attr' : String)
    (v : JSVal) (h : (col', attr') ≠ (col, attr)) :
    (state.setIn col attr v).getIn col' attr' = state.getIn col' attr' := by
  induction state with
  | nil => simp [FormState.setIn, FormState.getIn, h.symm]
  | cons e rest ih =>
    obtain ⟨k, w⟩ := e
    by_cases hk : k = (col, attr)
    · subst hk
      simp [FormState.setIn, FormState.getIn, h.symm]
    · by_cases ho : k = (col', attr')
      · subst ho
        simp [FormState.setIn, FormState.getIn, hk]
      · simp [FormState.setIn, FormState.getIn, hk, ho, ih]

/-- Closed form of the key error set by `localValidateFormValues`. -/
theorem keyErrorAfterValidation_eq (vd : Validators) (t : String → String)
    (state : FieldFormState) :
    keyErrorAfterValidation vd t state =
      if vd.mergeTagValid (state.fields.getIn "key" "value") = false then
        .str (t "Merge tag is invalid. May must be uppercase and contain only characters A-Z, 0-9, _. It must start with a letter.")
      else
        match state.keyServerValidation with
        | none => .str (t "Validation is in progress...")
        | some result =>
          if result.keyExists = true then
            .str (t "Another field with the same merge tag exists. Please choose another merge tag.")
          else .null := by
  have hne : (("key", "value") : String × String) ≠ ("name", "error") := by decide
  simp only [keyErrorAfterValidation, localValidateFormValues]
  by_cases hn : (state.fields.getIn "name" "value").truthy = true <;>
    by_cases hv : vd.mergeTagValid (state.fields.getIn "key" "value") = true <;>
    rcases hs : state.keyServerValidation with _ | ⟨_ | _⟩ <;>
    simp [hn, hv, hs, FormState.getIn_setIn_other _ _ _ _ _ _ hne, FormState.getIn_setIn_same]

/-- C21: in `localValidateFormValues`, the merge-tag key ends with no error
if and only if the key is valid, a server validation result is present, and
that result reports `exists = false`; an invalid key gets the `invalid` error
whatever the server result is, and a valid key that collides gets the
`another field with the same merge tag exists` error. With the validity rule
of the spec (`^[A-Z][A-Z0-9_]*$`), `USER_NAME` and `A1` are valid and
`user_name`, `1USER` and `USER-NAME` are not. -/
theorem key_error_cases (vd : Validators) (t : String → String) (state : FieldFormState) :
    (keyErrorAfterValidation vd t state = .null ↔
      (vd.mergeTagValid (state.fields.getIn "key" "value") = true ∧
        ∃ result, state.keyServerValidation = some result ∧ result.keyExists = false)) ∧
    (vd.mergeTagValid (state.fields.getIn "key" "value") = false →
      keyErrorAfterValidation vd t state = .str (t
        "Merge tag is invalid. May must be uppercase and contain only characters A-Z, 0-9, _. It must start with a letter.")) ∧
    (vd.mergeTagValid (state.fields.getIn "key" "value") = true →
      ∀ result, state.keyServerValidation = some result → result.keyExists = true →
      keyErrorAfterValidation vd t state = .str (t
        "Another field with the same merge tag exists. Please choose another merge tag.")) ∧
    (specMergeTagValid (.str "USER_NAME") = true ∧ specMergeTagValid (.str "A1") = true ∧
      specMergeTagValid (.str "user_name") = false ∧ specMergeTagValid (.str "1USER") = false ∧
      specMergeTagValid (.str "USER-NAME") = false) := by
  rw [keyErrorAfterValidation_eq]
  refine ⟨?_, ?_, ?_, by decide⟩
  · by_cases hv : vd.mergeTagValid (state.fields.getIn "key" "value") = true
    · rcases hs : state.keyServerValidation with _ | ⟨_ | _⟩ <;> simp [hv]
    · simp [hv]
  · intro hv
    simp [hv]
  · intro hv result hs he
    simp [hv, hs, he]

/-- C21, at the key `USER_NAME` with a server answer `exists = false`, and at
the key `user_name` with the same answer. -/
theorem key_error_cases_witness :
    keyErrorAfterValidation specValidators fixtureT
        (fixtureFormState "USER_NAME" (some { keyExists := false })) = .null ∧
      keyErrorAfterValidation specValidators fixtureT
        (fixtureFormState "user_name" (some { keyExists := false })) = .str
          "Merge tag is invalid. May must be uppercase and contain only characters A-Z, 0-9, _. It must start with a letter." :=
  ⟨(key_error_cases specValidators fixtureT
      (fixtureFormState "USER_NAME" (some { keyExists := false }))).1.mpr
      ⟨by decide, _, rfl, rfl⟩,
   (key_error_cases specValidators fixtureT
      (fixtureFormState "user_name" (some { keyExists := false }))).2.1 (by decide)⟩

/-- C22: in `submitHandler`, a `DependencyNotFoundError` raised while saving
is caught: the `danger` status message asking for a refresh is set and nothing
is thrown; every other error is rethrown to the caller (without a `danger` or
`warning` message); and a submit that was not successful yields the `warning`
status and throws nothing. -/
theorem submitHandler_error_classes (t : String → String) (listId : Nat)
    (entityId : Option Nat) (result : Except SubmitError Bool) :
    (∀ error, result = .error error → error.dependencyNotFound = true →
      submitHandler t listId entityId (fun _ _ => result) =
        ([.disableForm, .setFormStatusMessage "info" (.text (t "Saving field ...")),
          .setFormStatusMessage "danger"
            (.emphasised (t "Your updates cannot be saved.")
              (t "It seems that another field upon which sort field order was established has been deleted in the meantime. Refresh your page to start anew. Please note that your changes will be lost."))],
         none)) ∧
    (∀ error, result = .error error → error.dependencyNotFound = false →
      submitHandler t listId entityId (fun _ _ => result) =
        ([.disableForm, .setFormStatusMessage "info" (.text (t "Saving field ..."))],
         some error)) ∧
    (result = .ok false →
      submitHandler t listId entityId (fun _ _ => result) =
        ([.disableForm, .setFormStatusMessage "info" (.text (t "Saving field ...")),
          .enableForm,
          .setFormStatusMessage "warning"
            (.text (t "There are errors in the form. Please fix them and submit again."))],
         none)) := by
  refine ⟨?_, ?_, ?_⟩
  · intro error hr hd
    cases entityId <;> simp [submitHandler, hr, hd]
  · intro error hr hd
    cases entityId <;> simp [submitHandler, hr, hd]
  · intro hr
    cases entityId <;> simp [submitHandler, hr]

/-- C22, at an edited field whose save raises a `DependencyNotFoundError`. -/
theorem submitHandler_error_classes_witness :
    (submitHandler fixtureT 4 (some 9)
        (fun _ _ => .error { dependencyNotFound := true, description := "gone" })).2 = none ∧
      (submitHandler fixtureT 4 (some 9)
        (fun _ _ => .error { dependencyNotFound := true, description := "gone" })).1.getLast?
        = some (.setFormStatusMessage "danger"
            (.emphasised "Your updates cannot be saved."
              "It seems that another field upon which sort field order was established has been deleted in the meantime. Refresh your page to start anew. Please note that your changes will be lost.")) := by
  have h := (submitHandler_error_classes fixtureT 4 (some 9)
    (.error { dependencyNotFound := true, description := "gone" })).1 _ rfl rfl
  rw [h]
  exact ⟨rfl, rfl⟩

/-! ## Statements about the error handlers -/

/-- C23 (evaluation at the failing input): for every error and every request
flagged `needsAPIJSONResponse` and not `needsRESTJSONResponse`, the production
handler answers with status `err.status || 500` and the body
`{error: err.message || err, data: []}`, while the development handler throws a
`ReferenceError`, because it calls the unbound `status` instead of
`res.status`, and answers nothing. -/
theorem development_api_handler_throws (env : AppEnv) (err : AppError) (url : String) :
    developmentErrorHandler env (some err)
        { needsRESTJSONResponse := false, needsAPIJSONResponse := true, originalUrl := url }
      = .error (.referenceError "status") ∧
    productionErrorHandler env (some err)
        { needsRESTJSONResponse := false, needsAPIJSONResponse := true, originalUrl := url }
      = .ok [.consoleLog,
          .status (if err.status.truthy then err.status else .num 500),
          .json [("error", if err.message.truthy then .val err.message else .theError),
                 ("data", .emptyArray)]] :=
  ⟨rfl, rfl⟩

/-! ## Further statements about display values and the field form -/

/-- Closed form of the value that `assignFormData` gives a null column of a
single-select enumeration field. -/
theorem assignFormDataColumn_enumSingle_null (sh : Shared) (t : String → String)
    (kind : String) (hk : kind ∈ enumSingleKinds) (f : GroupedField) (data : Data) :
    assignFormDataColumn sh t kind f data .null =
      some (if f.defaultValueSet then .str (f.default_value.getD "")
            else .str ((f.settings.options.head?.map EnumOption.key).getD "")) := by
  obtain ⟨c, hc⟩ := fieldType?_enumSingle sh t kind hk
  simp only [assignFormDataColumn, hc, Option.map_some', enumSingleFieldType,
    Data.get_set_same]
  by_cases hd : f.defaultValueSet = true
  · simp [hd, Data.get_set_same]
  · cases ho : f.settings.options <;> simp [hd, Data.get_set_same]

/-- C24 (as stated, refuted): for a dropdown-enum field with options `au` and
`at` and default value `zz`, `initFormData` and `assignFormData` on a null
column choose `zz`, which is neither the empty string nor an option key. -/
theorem enumSingle_initial_value_stray :
    initColumn fixtureShared fixtureT "dropdown-enum" fixtureFieldStrayDefault []
        = some (.str "zz") ∧
      assignFormDataColumn fixtureShared fixtureT "dropdown-enum" fixtureFieldStrayDefault []
        .null = some (.str "zz") ∧
      "zz" ≠ "" ∧
      "zz" ∉ fixtureFieldStrayDefault.settings.options.map EnumOption.key := by
  decide

/-- C24 (amended): for every single-select enumeration field, the value
chosen by `initFormData`, and by `assignFormData` for a null stored value, is
the field's `default_value` when that is set (a non-empty string), and is the
empty string or the key of one of the field's options otherwise; so it is the
empty string or an option key whenever `default_value` is unset or is itself an
option key. -/
theorem enumSingle_initial_value (sh : Shared) (t : String → String) (kind : String)
    (hk : kind ∈ enumSingleKinds) (f : GroupedField) (data : Data) :
    ∃ v : String,
      initColumn sh t kind f data = some (.str v) ∧
      assignFormDataColumn sh t kind f data .null = some (.str v) ∧
      ((f.default_value = some v ∧ v ≠ "") ∨
        ((f.default_value = none ∨ f.default_value = some "") ∧
          (v = "" ∨ v ∈ f.settings.options.map EnumOption.key))) ∧
      ((f.default_value = none ∨ f.default_value = some "" ∨
          (∃ d, f.default_value = some d ∧ d ∈ f.settings.options.map EnumOption.key)) →
        v = "" ∨ v ∈ f.settings.options.map EnumOption.key) := by
  rw [initColumn_enumSingle sh t kind hk, assignFormDataColumn_enumSingle_null sh t kind hk]
  rcases hd : f.default_value with _ | d
  · cases ho : f.settings.options with
    | nil => exact ⟨"", by simp [GroupedField.defaultValueSet, hd, ho]⟩
    | cons first rest =>
      exact ⟨first.key, by simp [GroupedField.defaultValueSet, hd, ho]⟩
  · by_cases hne : d = ""
    · subst hne
      cases ho : f.settings.options with
      | nil => exact ⟨"", by simp [GroupedField.defaultValueSet, hd, ho]⟩
      | cons first rest =>
        exact ⟨first.key, by simp [GroupedField.defaultValueSet, hd, ho]⟩
    · refine ⟨d, by simp [GroupedField.defaultValueSet, hd, hne],
        by simp [GroupedField.defaultValueSet, hd, hne], Or.inl ⟨rfl, hne⟩, ?_⟩
      intro h
      rcases h with h | h | ⟨d', h, hmem⟩
      · exact absurd h (by simp)
      · exact absurd (Option.some.inj h) hne
      · rw [Option.some.inj h]
        exact Or.inr hmem

/-- C24 (amended), at kind radio-enum for a field without default value: the
value chosen is the first option key `au`. -/
theorem enumSingle_initial_value_witness :
    "radio-enum" ∈ enumSingleKinds ∧
      ∃ v : String,
        initColumn fixtureShared fixtureT "radio-enum" fixtureField [] = some (.str v) ∧
        (v = "" ∨ v ∈ fixtureField.settings.options.map EnumOption.key) := by
  obtain ⟨v, hi, -, -, hkey⟩ :=
    enumSingle_initial_value fixtureShared fixtureT "radio-enum" (by decide) fixtureField []
  exact ⟨by decide, v, hi, hkey (Or.inl rfl)⟩

theorem orderEntries_ok (fieldTypeLabel : String → Option String) (rows : List FieldRow)
    (h : ∀ x ∈ rows, (fieldTypeLabel x.type).isSome = true) :
    ∃ entries, orderEntries fieldTypeLabel rows = .ok entries ∧
      entries.map OrderOption.key = rows.map fun x => JSVal.num x.id := by
  induction rows with
  | nil => exact ⟨[], rfl, rfl⟩
  | cons x rest ih =>
    obtain ⟨entries, he, hk⟩ := ih fun y hy => h y (List.mem_cons_of_mem _ hy)
    obtain ⟨label, hl⟩ := Option.isSome_iff_exists.mp (h x (List.mem_cons_self _ _))
    refine ⟨{ key := .num x.id, label := x.name ++ " (" ++ label ++ ")" } :: entries, ?_, ?_⟩
    · simp [orderEntries, hl, he, Except.map]
    · simp [hk]

/-- C25: for every field list whose field types the label table knows, and
each ordering column, the options built by `getOrderOptions` start with the
`none` entry, end with the `end` entry, and in between contain exactly one
entry per field whose ordering value is non-null and which is not the field
being edited, keyed by field id and sorted by ascending ordering value. -/
theorem getOrderOptions_shape (t : String → String)
    (fieldTypeLabel : String → Option String) (entityId : Option Nat)
    (flds : List FieldRow) (fld : OrderColumn)
    (hlabel : ∀ x ∈ flds, (fieldTypeLabel x.type).isSome = true) :
    ∃ (options : List OrderOption) (middle : List FieldRow),
      getOrderOptions t fieldTypeLabel entityId flds fld = .ok options ∧
      options.head? = some { key := .str "none", label := t "Not visible" } ∧
      options.getLast? = some { key := .str "end", label := t "End of list" } ∧
      options.map OrderOption.key =
        [.str "none"] ++ middle.map (fun x => JSVal.num x.id) ++ [.str "end"] ∧
      middle.Perm (flds.filter fun x => decide (entityId ≠ some x.id ∧ x.order fld ≠ none)) ∧
      middle.Sorted (fun x y => ∀ a b, x.order fld = some a → y.order fld = some b → a ≤ b) := by
  have hfilter : (flds.filter fun x =>
        (entityId.isNone || some x.id != entityId) && (x.order fld).isSome) =
      flds.filter fun x => decide (entityId ≠ some x.id ∧ x.order fld ≠ none) := by
    apply List.filter_congr
    intro x _
    cases entityId with
    | none => cases hx : x.order fld <;> simp
    | some e =>
      by_cases hxe : x.id = e
      · cases hx : x.order fld <;> simp [hxe]
      · have hxe' : e ≠ x.id := fun h => hxe h.symm
        cases hx : x.order fld <;> simp [hxe, hxe']
  let r : FieldRow → FieldRow → Prop := fun x y => x.orderNumber fld ≤ y.orderNumber fld
  have htotal : IsTotal FieldRow r := ⟨fun a b => le_total _ _⟩
  have htrans : IsTrans FieldRow r := ⟨fun a b c hab hbc => le_trans hab hbc⟩
  let kept := flds.filter fun x =>
    (entityId.isNone || some x.id != entityId) && (x.order fld).isSome
  have hperm : (kept.insertionSort r).Perm kept := List.perm_insertionSort r kept
  have hsorted : (kept.insertionSort r).Sorted r := List.sorted_insertionSort r kept
  have hmem : ∀ x ∈ kept.insertionSort r, (fieldTypeLabel x.type).isSome = true := by
    intro x hx
    exact hlabel x (List.mem_of_mem_filter (hperm.mem_iff.mp hx))
  obtain ⟨entries, he, hk⟩ := orderEntries_ok fieldTypeLabel _ hmem
  refine ⟨[{ key := .str "none", label := t "Not visible" }] ++ entries ++
      [{ key := .str "end", label := t "End of list" }], kept.insertionSort r, ?_, ?_, ?_, ?_,
      ?_, ?_⟩
  · show Except.map _ (orderEntries fieldTypeLabel (kept.insertionSort r)) = _
    rw [he]
    rfl
  · rfl
  · rw [List.append_assoc, ← List.append_assoc, List.getLast?_concat]
  · simp [hk]
  · rw [← hfilter]
    exact hperm
  · refine List.Pairwise.imp ?_ hsorted
    intro x y hxy a b ha hb
    simpa [r, FieldRow.orderNumber, ha, hb] using hxy

/-- C25, at three fields, editing field 13, for the column `order_subscribe`. -/
theorem getOrderOptions_shape_witness :
    ∃ (options : List OrderOption),
      getOrderOptions fixtureT fixtureTypeLabel (some 13) fixtureFieldRows .order_subscribe
        = .ok options ∧
      options.map OrderOption.key = [.str "none", .num 11, .num 12, .str "end"] := by
  obtain ⟨options, middle, hok, -, -, -, -, -⟩ :=
    getOrderOptions_shape fixtureT fixtureTypeLabel (some 13) fixtureFieldRows .order_subscribe
      (fun _ _ => rfl)
  refine ⟨options, hok, ?_⟩
  have hval : getOrderOptions fixtureT fixtureTypeLabel (some 13) fixtureFieldRows
      .order_subscribe = .ok
        [{ key := .str "none", label := "Not visible" },
         { key := .num 11, label := "City (text)" },
         { key := .num 12, label := "Age (number)" },
         { key := .str "end", label := "End of list" }] := by
    rfl
  rw [hval] at hok
  cases hok
  rfl

end Mailtrain
